import Mathlib

/-!
# Portfolioptimizer dashboard: a shallow embedding of `frontend/src/App.jsx`

The component `App` keeps ten `useState` cells and two asynchronous handlers,
`loadData` and `handleOptimization`.  A handler is modelled as a function from
the outcome of its HTTP requests and the state before the call to the state
once the handler has run to completion.  JavaScript values are the values
`JSON.parse` can produce plus `undefined`.  A number value carries a rational;
subtraction, multiplication and `toFixed` work in binary64 (IEEE 754, to
nearest, ties to even), rounding their operands first, so that a decimal
literal is read there as the double it parses to.
-/

namespace Portfolioptimizer

/-! ## JavaScript values -/

/-- A JavaScript value: `undefined`, or what `JSON.parse` returns.  An object is
its list of own properties in property order. -/
inductive JsVal where
  | undefined : JsVal
  | null : JsVal
  | bool (b : Bool) : JsVal
  | num (q : ℚ) : JsVal
  | str (s : String) : JsVal
  | arr (xs : List JsVal) : JsVal
  | obj (ps : List (String × JsVal)) : JsVal

/-- An object's property list. -/
abbrev Props := List (String × JsVal)

/-- JavaScript `ToBoolean`: `undefined`, `null`, `false`, `0` and `''` are falsy,
everything else (arrays and objects included) is truthy. -/
def truthy : JsVal → Bool
  | .undefined => false
  | .null => false
  | .bool b => b
  | .num q => decide (q ≠ 0)
  | .str s => decide (s ≠ "")
  | .arr _ => true
  | .obj _ => true

/-- The operator `a || b`: `a` when it is truthy, else `b`. -/
def jsOr (a b : JsVal) : JsVal := if truthy a then a else b

/-- Own-property lookup in a property list; a missing key reads `undefined`. -/
def lookupProp : Props → String → JsVal
  | [], _ => .undefined
  | (k, v) :: ps, key => if k = key then v else lookupProp ps key

/-- Property read `v.key` for the keys this program reads (`weights`,
`expected_return`, `expected_volatility`, `sharpe_ratio`, `data`, and the keys
of the rendered result), none of which is inherited from a prototype.  Reading
a property of `null` or `undefined` throws a `TypeError`, whose message is the
error value here. -/
def getProp (v : JsVal) (key : String) : Except String JsVal :=
  match v with
  | .undefined => .error ("Cannot read properties of undefined (reading \x27" ++ key ++ "\x27)")
  | .null => .error ("Cannot read properties of null (reading \x27" ++ key ++ "\x27)")
  | .obj ps => .ok (lookupProp ps key)
  | _ => .ok .undefined

/-- Optional chaining read `v?.key`: `undefined` on `null` and `undefined`. -/
def getPropOpt (v : JsVal) (key : String) : JsVal :=
  match v with
  | .obj ps => lookupProp ps key
  | _ => .undefined

/-- Writing `key: v` in an object literal after the properties `ps` are already
there: an existing property keeps its place and takes the new value, a new one
goes to the end. -/
def setProp : Props → String → JsVal → Props
  | [], key, v => [(key, v)]
  | (k, w) :: ps, key, v => if k = key then (k, v) :: ps else (k, w) :: setProp ps key v

/-- The own enumerable properties that the spread `...v` copies into an object
literal: those of an object, the indexed elements of an array, the indexed
characters of a string (by code point), and nothing for the other values. -/
def spreadProps : JsVal → Props
  | .obj ps => ps
  | .arr xs => xs.enum.map (fun p => (toString p.1, p.2))
  | .str s => s.toList.enum.map (fun p => (toString p.1, JsVal.str (String.singleton p.2)))
  | _ => []

/-! ## Requests -/

/-- What `await fetch(...)` followed by `response.json()` can do: the fetch
rejects with an error carrying `message`, or it resolves to a response with its
`ok` flag, whose body either parses to a value or makes `json()` reject. -/
inductive FetchOutcome where
  | rejected (message : String) : FetchOutcome
  | response (ok : Bool) (body : Except String JsVal) : FetchOutcome

/-! ## Component state -/

/-- The `useState` cells of `App`. -/
structure AppState where
  loading : Bool
  error : Option String
  symbol : String
  marketData : JsVal
  sentiment : JsVal
  biasScores : JsVal
  portfolio : JsVal
  optimizationOpen : Bool
  optimizationResult : JsVal
  optimizationLoading : Bool

/-- The initial values passed to `useState`. -/
def initialState : AppState where
  loading := true
  error := none
  symbol := "AAPL"
  marketData := .arr []
  sentiment := .null
  biasScores := .null
  portfolio := .null
  optimizationOpen := false
  optimizationResult := .null
  optimizationLoading := false

/-! ## `loadData` -/

/-- The object literal passed to `setBiasScores` (App.jsx lines 66-75). -/
def biasScoresLiteral : JsVal :=
  .obj [("disposition_effect", .num 0.65),
        ("loss_aversion", .num 0.72),
        ("overconfidence", .num 0.48),
        ("recency_bias", .num 0.55),
        ("herding_behavior", .num 0.38),
        ("confirmation_bias", .num 0.42),
        ("anchoring_bias", .num 0.61),
        ("regret_aversion", .num 0.33)]

/-- The value `await res.json()` yields after `await fetch(...)`: `loadData`
calls `json()` whatever the status, so only a rejection or a parse failure
throws. -/
def fetchJson : FetchOutcome → Except String JsVal
  | .rejected message => .error message
  | .response _ body => body

/-- The function `loadData` of App.jsx (lines 53-82), given the outcome of the
market-data request and of the sentiment request.  The setters before the
throwing statement have already run when the `catch` block runs. -/
def loadData (market sentiment : FetchOutcome) (s : AppState) : AppState :=
  let s1 := { s with loading := true, error := none }
  match fetchJson market with
  | .error message => { s1 with error := some message, loading := false }
  | .ok marketJson =>
    match getProp marketJson "data" with
    | .error message => { s1 with error := some message, loading := false }
    | .ok data =>
      let s2 := { s1 with marketData := jsOr data (.arr []) }
      match fetchJson sentiment with
      | .error message => { s2 with error := some message, loading := false }
      | .ok sentimentJson =>
        { s2 with sentiment := sentimentJson,
                  biasScores := biasScoresLiteral,
                  loading := false }

/-! ## `handleOptimization` -/

/-- The rationale string literal of the `try` block (App.jsx line 121). -/
def rationaleText : String :=
  "Based on your high disposition effect (65%) and loss aversion (72%), the optimization reduces concentration risk and increases diversification to minimize emotional decision-making."

/-- The rationale string literal of the `catch` block (App.jsx line 142). -/
def catchRationaleText : String :=
  "Based on your high disposition effect (65%) and loss aversion (72%), the optimization reduces concentration risk and increases diversification to minimize emotional decision-making."

/-- The object `mockResult` built from `result` (App.jsx lines 106-122). -/
def mockResult (result : JsVal) : Except String JsVal := do
  let weights ← getProp result "weights"
  let expectedReturn ← getProp result "expected_return"
  let expectedVolatility ← getProp result "expected_volatility"
  let sharpeRatio ← getProp result "sharpe_ratio"
  let p0 := spreadProps result
  let p1 := setProp p0 "recommended_weights"
    (jsOr weights (.obj [("AAPL", .num 0.40), ("MSFT", .num 0.35), ("GOOGL", .num 0.25)]))
  let p2 := setProp p1 "current_weights"
    (.obj [("AAPL", .num 0.33), ("MSFT", .num 0.33), ("GOOGL", .num 0.34)])
  let p3 := setProp p2 "expected_return" (jsOr expectedReturn (.num 0.098))
  let p4 := setProp p3 "expected_risk" (jsOr expectedVolatility (.num 0.164))
  let p5 := setProp p4 "sharpe_ratio" (jsOr sharpeRatio (.num 0.45))
  let p6 := setProp p5 "rationale" (.str rationaleText)
  pure (.obj p6)

/-- The object literal stored by the `catch` block (App.jsx lines 128-143). -/
def catchResult : JsVal :=
  .obj [("recommended_weights",
          .obj [("AAPL", .num 0.40), ("MSFT", .num 0.35), ("GOOGL", .num 0.25)]),
        ("current_weights",
          .obj [("AAPL", .num 0.33), ("MSFT", .num 0.33), ("GOOGL", .num 0.34)]),
        ("expected_return", .num 0.098),
        ("expected_risk", .num 0.164),
        ("sharpe_ratio", .num 0.45),
        ("rationale", .str catchRationaleText)]

/-- The `try` block of `handleOptimization` up to the value handed to
`setOptimizationResult`: `result` is the parsed body when `response.ok`, the
empty object otherwise, and `mockResult` is built from it. -/
def optimizationTry : FetchOutcome → Except String JsVal
  | .rejected message => .error message
  | .response ok body => do
    let result ← if ok then body else pure (.obj [])
    mockResult result

/-- The function `handleOptimization` of App.jsx (lines 88-147), given the
outcome of the request to `/api/optimization/optimize`. -/
def handleOptimization (r : FetchOutcome) (s : AppState) : AppState :=
  let s1 := { s with optimizationLoading := true, optimizationOpen := true }
  match optimizationTry r with
  | .ok result =>
    { s1 with optimizationResult := result, optimizationLoading := false, error := none }
  | .error _ =>
    { s1 with optimizationResult := catchResult, optimizationLoading := false, error := none }

/-! ## Rendering -/

/-- The text of the recommendation alert (App.jsx line 378). -/
def recommendationAlertText : String :=
  "Your portfolio shows high disposition effect (65%) and loss aversion (72%). Consider rebalancing to reduce emotional trading."

/-- The integer `n` that `Number.prototype.toFixed(f)` picks for `x ≥ 0`: the
one with `n / 10^f` closest to `x`, the larger of the two on a tie. -/
def roundHalfUp (x : ℚ) (f : Nat) : Nat := (Rat.floor (x * 10 ^ f + 1 / 2)).toNat

/-- The decimal digits of `n` with a point before the last `f` of them, padded
with zeros on the left so that at least one digit precedes the point. -/
def fixedDigits (f n : Nat) : String :=
  let d := (Nat.repr n).toList
  let m := List.replicate (f + 1 - d.length) '0' ++ d
  if f = 0 then String.mk m
  else String.mk (m.take (m.length - f) ++ '.' :: m.drop (m.length - f))

/-- The fixed notation that `Number.prototype.toFixed(f)` prints for a value
`x` below `10^21` in magnitude: a minus sign for `x < 0`, then the rounded
magnitude. -/
def toFixed (x : ℚ) (f : Nat) : String :=
  if x < 0 then "-" ++ fixedDigits f (roundHalfUp (-x) f) else fixedDigits f (roundHalfUp x f)

/-! ## Reading results -/

/-- The keys of a value, as `Object.keys` lists them. -/
def keysOf (v : JsVal) : List String := (spreadProps v).map Prod.fst

/-- The number a value is, if it is one. -/
def numOf : JsVal → Option ℚ
  | .num q => some q
  | _ => none

/-- The numeric properties of an object, in property order. -/
def numEntries (v : JsVal) : List (String × ℚ) :=
  (spreadProps v).filterMap (fun p => (numOf p.2).map (fun q => (p.1, q)))

/-- The weights of a symbol-to-weight mapping stored under `key` of a result. -/
def weightsAt (result : JsVal) (key : String) : List ℚ :=
  (numEntries (getPropOpt result key)).map Prod.snd

/-- A PortfolioState in the sense of the data model: every weight is
non-negative and the weights sum to one. -/
def ValidPortfolioState (ws : List ℚ) : Prop := (∀ w ∈ ws, 0 ≤ w) ∧ ws.sum = 1

instance (ws : List ℚ) : Decidable (ValidPortfolioState ws) :=
  inferInstanceAs (Decidable ((∀ w ∈ ws, 0 ≤ w) ∧ ws.sum = 1))

/-- The largest weight of an allocation. -/
def largestWeight (ws : List ℚ) : ℚ := ws.foldr max 0

/-- The sum of squared weights of an allocation. -/
def sumSquares (ws : List ℚ) : ℚ := (ws.map (fun w => w ^ 2)).sum

/-- The text `s` contains the phrase `phrase`: some text before the phrase and
some text after it make up `s`. -/
def Contains (s phrase : String) : Prop := List.IsInfix phrase.toList s.toList

instance (s phrase : String) : Decidable (Contains s phrase) :=
  inferInstanceAs (Decidable (List.IsInfix phrase.toList s.toList))

/-- A value on which a property read throws. -/
def isNullish : JsVal → Bool
  | .undefined => true
  | .null => true
  | _ => false

/-- The request fails: the fetch rejects, the status is not OK, or the body of
an OK response does not parse. -/
def requestFails : FetchOutcome → Bool
  | .rejected _ => true
  | .response false _ => true
  | .response true (.error _) => true
  | .response true (.ok _) => false

/-- The API is absent for a request of `loadData`: the fetch rejects or the
body does not parse. -/
def apiAbsent : FetchOutcome → Bool
  | .rejected _ => true
  | .response _ (.error _) => true
  | .response _ (.ok _) => false

/-- The message of the error that a request raises when the API is absent for
it: the one the fetch rejects with, or the one `json()` rejects with. -/
def failureMessage : FetchOutcome → Option String
  | .rejected message => some message
  | .response _ (.error message) => some message
  | .response _ (.ok _) => none

/-- An OK body in the shape the specification gives `OptimizationResult`, all
five fields present and non-zero. -/
def specShapedBody : JsVal :=
  .obj [("recommended_weights",
          .obj [("AAPL", .num 0.50), ("MSFT", .num 0.30), ("GOOGL", .num 0.20)]),
        ("expected_return", .num 0.12),
        ("expected_risk", .num 0.20),
        ("sharpe_ratio", .num 0.60),
        ("rationale", .str "Turnover tightened for disposition effect and loss aversion.")]

/-- An OK body with the field names `mockResult` reads (`weights`,
`expected_volatility`), every field non-zero. -/
def engineShapedBody : JsVal :=
  .obj [("weights", .obj [("AAPL", .num 0.50), ("MSFT", .num 0.30), ("GOOGL", .num 0.20)]),
        ("expected_return", .num 0.12),
        ("expected_volatility", .num 0.20),
        ("sharpe_ratio", .num 0.60)]

/-- An OK body of a riskless allocation: `expected_volatility` is `0` and the
Sharpe ratio, being undefined, is left out. -/
def undefinedSharpeBody : JsVal :=
  .obj [("weights", .obj [("AAPL", .num 0.40), ("MSFT", .num 0.35), ("GOOGL", .num 0.25)]),
        ("expected_return", .num 0.02),
        ("expected_volatility", .num 0)]

/-- An OK body whose `expected_return` and `sharpe_ratio` are present with the
value `0`. -/
def zeroReturnBody : JsVal :=
  .obj [("weights", .obj [("AAPL", .num 0.40), ("MSFT", .num 0.35), ("GOOGL", .num 0.25)]),
        ("expected_return", .num 0),
        ("expected_volatility", .num 0.10),
        ("sharpe_ratio", .num 0)]

/-! ## The old component `App.old.jsx` -/

/-- The object literal passed to `setBiasScores` in App.old.jsx (lines 69-78,
under the comment "Mock bias scores for demo"). -/
def AppOld.biasScoresLiteral : JsVal :=
  .obj [("disposition_effect", .num 0.65),
        ("loss_aversion", .num 0.72),
        ("overconfidence", .num 0.48),
        ("recency_bias", .num 0.55),
        ("herding_behavior", .num 0.38),
        ("confirmation_bias", .num 0.42),
        ("anchoring_bias", .num 0.61),
        ("regret_aversion", .num 0.33)]

/-- The function `loadData` of App.old.jsx (lines 53-85). -/
def AppOld.loadData (market sentiment : FetchOutcome) (s : AppState) : AppState :=
  let s1 := { s with loading := true, error := none }
  match fetchJson market with
  | .error message => { s1 with error := some message, loading := false }
  | .ok marketJson =>
    match getProp marketJson "data" with
    | .error message => { s1 with error := some message, loading := false }
    | .ok data =>
      let s2 := { s1 with marketData := jsOr data (.arr []) }
      match fetchJson sentiment with
      | .error message => { s2 with error := some message, loading := false }
      | .ok sentimentJson =>
        { s2 with sentiment := sentimentJson,
                  biasScores := AppOld.biasScoresLiteral,
                  loading := false }

/-! ## The request of `handleOptimization` -/

/-- The arguments of a `fetch` call that sends JSON: the URL, the HTTP method,
the headers, and the value handed to `JSON.stringify` for the body. -/
structure FetchRequest where
  url : String
  method : String
  headers : List (String × String)
  body : JsVal

/-- The request `handleOptimization` sends (App.jsx lines 93-102).  The handler
closes over the component state and reads none of it. -/
def optimizationRequest (_s : AppState) : FetchRequest where
  url := "/api/optimization/optimize"
  method := "POST"
  headers := [("Content-Type", "application/json")]
  body := .obj [("portfolio_id", .str "demo-portfolio"),
                ("assets", .arr [.str "AAPL", .str "MSFT", .str "GOOGL"]),
                ("method", .str "behavioral_mvo"),
                ("constraints", .null)]

/-- The strings of an array of strings; `none` when the value is not one. -/
def stringsOf : JsVal → Option (List String)
  | .arr xs => xs.mapM (fun x => match x with
      | .str t => some t
      | _ => none)
  | _ => none

/-! ## Numeric coercion -/

/-- The result of arithmetic on the values modelled here: `NaN`, a finite
number, or an infinity with its sign. -/
inductive JsNumber where
  | nan : JsNumber
  | fin (q : ℚ) : JsNumber
  | inf (negative : Bool) : JsNumber

/-- JavaScript `ToNumber` on `undefined` (`NaN`), `null` (`0`), booleans and
numbers.  Strings, arrays and objects convert through the string-to-number
grammar, which is not modelled: the result is `none` there. -/
def toNumber : JsVal → Option JsNumber
  | .undefined => some .nan
  | .null => some (.fin 0)
  | .bool b => some (.fin (if b then 1 else 0))
  | .num q => some (.fin q)
  | _ => none

/-- The comparison `n > c` of a number with a numeric literal; false on `NaN`. -/
def numGt : JsNumber → ℚ → Bool
  | .nan, _ => false
  | .fin q, c => decide (c < q)
  | .inf negative, _ => !negative

/-- The comparison `v > c` of a value with a numeric literal. -/
def jsGt (v : JsVal) (c : ℚ) : Option Bool := (toNumber v).map (fun n => numGt n c)

/-- The integer nearest to `x`, the even one of the two on a tie. -/
def roundTiesEven (x : ℚ) : ℤ :=
  let n := Rat.floor x
  let r := x - n
  if r < 1 / 2 then n else if 1 / 2 < r then n + 1 else if n % 2 = 0 then n else n + 1

/-- The exponent of the binary64 binade of `x`: the `e` with
`2^e ≤ |x| < 2^(e+1)`, and `-1022` below the normal range. -/
def binade (x : ℚ) : ℤ := max (Int.log 2 |x|) (-1022)

/-- The value `x` rounded to 53 significant bits in its binade (to a multiple of
`2^-1074` below the normal range), to nearest and ties to even. -/
def roundDouble (x : ℚ) : ℚ := roundTiesEven (x / 2 ^ (binade x - 52)) * 2 ^ (binade x - 52)

/-- The binary64 number nearest to `x`, as IEEE 754 arithmetic and the parsing
of a numeric literal produce it: an infinity when the rounded magnitude reaches
`2^1024`.  The sign of a zero is not kept; the program never divides. -/
def toDouble (x : ℚ) : JsNumber :=
  if 2 ^ 1024 ≤ |roundDouble x| then .inf (decide (x < 0)) else .fin (roundDouble x)

/-- A number as the binary64 operand it is.  Rounding leaves a value that is a
double unchanged and reads a decimal literal, which as a rule is not a double,
as the double it parses to. -/
def asDouble : JsNumber → JsNumber
  | .fin q => toDouble q
  | n => n

/-- The difference `a - b` in binary64 arithmetic. -/
def numSub (a b : JsNumber) : JsNumber :=
  match asDouble a, asDouble b with
  | .fin x, .fin y => toDouble (x - y)
  | .inf negative, .fin _ => .inf negative
  | .fin _, .inf negative => .inf (!negative)
  | .inf negative, .inf negative2 => if negative = negative2 then .nan else .inf negative
  | _, _ => .nan

/-- The product `a * b` in binary64 arithmetic. -/
def numMul (a b : JsNumber) : JsNumber :=
  match asDouble a, asDouble b with
  | .fin x, .fin y => toDouble (x * y)
  | .inf negative, .fin y => if y = 0 then .nan else .inf (xor negative (decide (y < 0)))
  | .fin x, .inf negative => if x = 0 then .nan else .inf (xor negative (decide (x < 0)))
  | .inf negative, .inf negative2 => .inf (xor negative negative2)
  | _, _ => .nan

/-- The method `toFixed(f)` on a number: the texts `NaN`, `Infinity` and
`-Infinity`, and the fixed notation of a finite double below `10^21` in
magnitude.  From `10^21` on the method prints the exponent notation of
`Number.prototype.toString`, which is not modelled: the result is `none`. -/
def numToFixed (n : JsNumber) (f : Nat) : Option String :=
  match asDouble n with
  | .nan => some "NaN"
  | .inf false => some "Infinity"
  | .inf true => some "-Infinity"
  | .fin x => if 10 ^ 21 ≤ |x| then none else some (toFixed x f)

/-- The number that the text `toFixed x f` denotes. -/
def fixedValue (x : ℚ) (f : Nat) : ℚ :=
  if x < 0 then -((roundHalfUp (-x) f : ℚ) / 10 ^ f) else (roundHalfUp x f : ℚ) / 10 ^ f

/-- The number that `ToNumber` gives for the text `numToFixed n f` when that
text is compared with a number: `NaN` for `NaN`, the infinities for theirs, and
the double nearest to the denoted decimal otherwise. -/
def numFixedValue (n : JsNumber) (f : Nat) : JsNumber :=
  match asDouble n with
  | .fin x => toDouble (fixedValue x f)
  | other => other

/-- The Sharpe Ratio cell (App.jsx line 458),
`optimizationResult.sharpe_ratio?.toFixed(2) || 'N/A'`, for a truthy
`optimizationResult`: `some (.ok text)` when it renders `text`,
`some (.error message)` when it throws, which it does on a value that is neither
nullish nor a number, since `toFixed` is `undefined` there. -/
def sharpeCell (optimizationResult : JsVal) : Option (Except String String) :=
  match getProp optimizationResult "sharpe_ratio" with
  | .error message => some (.error message)
  | .ok .undefined => some (.ok "N/A")
  | .ok .null => some (.ok "N/A")
  | .ok (.num q) => (numToFixed (.fin q) 2).map (fun text =>
      .ok (if text = "" then "N/A" else text))
  | .ok _ => some (.error "optimizationResult.sharpe_ratio?.toFixed is not a function")

/-! ## The sentiment card -/

/-- The label literal for a score above 0.5 (App.jsx line 275); the first four
characters are the bytes of an emoji read in a one-byte encoding, as the source
file has them. -/
def veryPositiveLabel : String := "ðŸŸ¢ Very Positive"

/-- The label literal for a score above 0 (App.jsx line 275). -/
def positiveLabel : String := "ðŸŸ¢ Positive"

/-- The label literal for a score above -0.5 (App.jsx line 275). -/
def neutralLabel : String := "ðŸŸ¡ Neutral"

/-- The label literal of the last branch (App.jsx line 275). -/
def negativeLabel : String := "ðŸ”´ Negative"

/-- The card shows the sentiment box when `sentiment` is truthy and a spinner
otherwise (App.jsx line 265). -/
def sentimentShown (sentiment : JsVal) : Bool := truthy sentiment

/-- The child `sentiment.sentiment_score` of the score line (App.jsx line 272),
for a truthy `sentiment`, on which the property read does not throw. -/
def scoreChild (sentiment : JsVal) : JsVal := getPropOpt sentiment "sentiment_score"

/-- The text before the score (App.jsx line 272):
a plus sign when `sentiment.sentiment_score > 0`, the empty text otherwise. -/
def scoreSign (sentiment : JsVal) : Option String := do
  let positive ← jsGt (getPropOpt sentiment "sentiment_score") 0
  pure (if positive then "+" else "")

/-- The label expression (App.jsx line 275). -/
def sentimentLabel (sentiment : JsVal) : Option String := do
  if ← jsGt (getPropOpt sentiment "sentiment_score") 0.5 then pure veryPositiveLabel
  else if ← jsGt (getPropOpt sentiment "sentiment_score") 0 then pure positiveLabel
  else if ← jsGt (getPropOpt sentiment "sentiment_score") (-0.5) then pure neutralLabel
  else pure negativeLabel

/-- The value `sentiment.confidence * 100` given to the progress bar (App.jsx
line 286). -/
def confidenceProgress (sentiment : JsVal) : Option JsNumber := do
  let c ← toNumber (getPropOpt sentiment "confidence")
  pure (numMul c (.fin 100))

/-- The confidence line (App.jsx line 285): `(sentiment.confidence * 100)`
through `toFixed(0)`, followed by a percent sign. -/
def confidenceText (sentiment : JsVal) : Option String := do
  let c ← confidenceProgress sentiment
  let text ← numToFixed c 0
  pure (text ++ "%")

/-- The child `sentiment.volume_mentions` of the mentions line (App.jsx line
294). -/
def mentionsChild (sentiment : JsVal) : JsVal := getPropOpt sentiment "volume_mentions"

/-- The place of a label in the order Negative, Neutral, Positive, Very
Positive. -/
def labelRank (label : String) : Nat :=
  if label = veryPositiveLabel then 3
  else if label = positiveLabel then 2
  else if label = neutralLabel then 1
  else 0

/-- The neutral SentimentSummary with the field names of the data model. -/
def neutralSentiment : JsVal :=
  .obj [("sentiment_score", .num 0), ("confidence", .num 0), ("volume_mentions", .num 0)]

/-- The neutral default as the specification of the aggregator writes it, with
the field `score` instead of `sentiment_score`. -/
def specNeutralDefault : JsVal :=
  .obj [("score", .num 0), ("confidence", .num 0), ("volume_mentions", .num 0)]

/-! ## The allocation table -/

/-- The property names every object inherits from `Object.prototype`. -/
def objectPrototypeKeys : List String :=
  ["constructor", "hasOwnProperty", "isPrototypeOf", "propertyIsEnumerable",
   "toLocaleString", "toString", "valueOf", "__proto__", "__defineGetter__",
   "__defineSetter__", "__lookupGetter__", "__lookupSetter__"]

/-- What a property read with a computed key finds: a value, or a member that
every object inherits from `Object.prototype` (a built-in function, or for
`__proto__` the prototype object itself). -/
inductive Member where
  | value (v : JsVal) : Member
  | inherited : Member

/-- The read `weights?.[symbol]` with a computed key: `undefined` on a nullish
`weights`; on an object the own property if there is one, else the inherited
member if the key names one, else `undefined`.  Reads on strings, arrays and
primitives go through other prototypes and are not modelled: the result is
`none` there. -/
def indexOpt (weights : JsVal) (symbol : String) : Option Member :=
  match weights with
  | .undefined => some (.value .undefined)
  | .null => some (.value .undefined)
  | .obj ps =>
    if (ps.map Prod.fst).contains symbol then some (.value (lookupProp ps symbol))
    else if objectPrototypeKeys.contains symbol then some .inherited
    else some (.value .undefined)
  | _ => none

/-- The number that `found || 0` is in arithmetic.  An inherited member is an
object, hence truthy, and converts to `NaN`. -/
def orZeroNumber : Member → Option JsNumber
  | .value v => toNumber (jsOr v (.num 0))
  | .inherited => some .nan

/-- A row of the allocation table: the symbol and the texts of the three
percentage cells. -/
structure AllocationRow where
  symbol : String
  current : String
  recommended : String
  change : String

/-- The body of the `map` callback of the table (App.jsx lines 421-433) for the
entry `[symbol, weight]` of `recommended_weights`. -/
def allocationRow (optimizationResult : JsVal) (symbol : String) (weight : JsVal) :
    Option AllocationRow := do
  let found ← indexOpt (getPropOpt optimizationResult "current_weights") symbol
  let currentWeight ← orZeroNumber found
  let w ← toNumber weight
  let difference := numMul (numSub w currentWeight) (.fin 100)
  let change ← numToFixed difference 2
  let sign := if numGt (numFixedValue difference 2) 0 then "+" else ""
  let current ← numToFixed (numMul currentWeight (.fin 100)) 2
  let recommended ← numToFixed (numMul w (.fin 100)) 2
  pure { symbol := symbol,
         current := current ++ "%",
         recommended := recommended ++ "%",
         change := sign ++ change ++ "%" }

/-- The rows of the table (App.jsx line 421): one per entry of
`recommended_weights` when that is truthy, none otherwise. -/
def allocationRows (optimizationResult : JsVal) : Option (List AllocationRow) :=
  let recommended := getPropOpt optimizationResult "recommended_weights"
  if truthy recommended then
    (spreadProps recommended).mapM (fun p => allocationRow optimizationResult p.1 p.2)
  else some []

/-- An OK body whose `weights` name an asset `toString`, a name that every
object inherits from `Object.prototype`. -/
def inheritedSymbolBody : JsVal :=
  .obj [("weights", .obj [("AAPL", .num 0.50), ("toString", .num 0.50)])]

/-- The run of `loadData` reaches the end of its `try` block: both fetches
resolve, both bodies parse, and the market body is not nullish. -/
def loadCompletes : FetchOutcome → FetchOutcome → Bool
  | .response _ (.ok marketJson), .response _ (.ok _) => !isNullish marketJson
  | _, _ => false

/-- Both requests resolve and both bodies parse. -/
def bothParsed : FetchOutcome → FetchOutcome → Bool
  | .response _ (.ok _), .response _ (.ok _) => true
  | _, _ => false

/-! ## Property lists -/

theorem lookupProp_setProp_same (ps : Props) (key : String) (v : JsVal) :
    lookupProp (setProp ps key v) key = v := by
  induction ps with
  | nil => simp [setProp, lookupProp]
  | cons p ps ih =>
    obtain ⟨k, w⟩ := p
    by_cases h : k = key
    · simp [setProp, lookupProp, h]
    · simp [setProp, lookupProp, h, ih]

theorem lookupProp_setProp_other (ps : Props) (key other : String) (v : JsVal)
    (hne : key ≠ other) : lookupProp (setProp ps key v) other = lookupProp ps other := by
  induction ps with
  | nil => simp [setProp, lookupProp, hne]
  | cons p ps ih =>
    obtain ⟨k, w⟩ := p
    by_cases h : k = key
    · subst h
      simp [setProp, lookupProp, hne]
    · by_cases h2 : k = other
      · subst h2
        simp [setProp, lookupProp, h]
      · simp [setProp, lookupProp, h, h2, ih]

/-! ## Runs of the handlers -/

/-- On a value that is not nullish, `mockResult` does not throw and is the
spread of the value followed by the six written properties. -/
theorem mockResult_of_not_nullish (result : JsVal) (h : isNullish result = false) :
    mockResult result = .ok (.obj
      (setProp (setProp (setProp (setProp (setProp (setProp (spreadProps result)
        "recommended_weights"
          (jsOr (getPropOpt result "weights")
            (.obj [("AAPL", .num 0.40), ("MSFT", .num 0.35), ("GOOGL", .num 0.25)])))
        "current_weights"
          (.obj [("AAPL", .num 0.33), ("MSFT", .num 0.33), ("GOOGL", .num 0.34)]))
        "expected_return" (jsOr (getPropOpt result "expected_return") (.num 0.098)))
        "expected_risk" (jsOr (getPropOpt result "expected_volatility") (.num 0.164)))
        "sharpe_ratio" (jsOr (getPropOpt result "sharpe_ratio") (.num 0.45)))
        "rationale" (.str rationaleText))) := by
  cases result <;> first | rfl | simp [isNullish] at h

/-- On `null` and `undefined`, `mockResult` throws. -/
theorem mockResult_of_nullish (result : JsVal) (h : isNullish result = true) :
    ∃ message, mockResult result = .error message := by
  cases result <;> first | exact ⟨_, rfl⟩ | simp [isNullish] at h

/-- A run of `loadData` in which both bodies parse and the market body is not
nullish reaches the end of the `try` block. -/
theorem loadData_of_parsed (ok1 ok2 : Bool) (marketJson sentimentJson : JsVal) (s : AppState)
    (h : isNullish marketJson = false) :
    loadData (.response ok1 (.ok marketJson)) (.response ok2 (.ok sentimentJson)) s =
      { s with loading := false, error := none,
               marketData := jsOr (getPropOpt marketJson "data") (.arr []),
               sentiment := sentimentJson,
               biasScores := biasScoresLiteral } := by
  cases marketJson <;> first | rfl | simp [isNullish] at h

/-! ## Arithmetic of the hard-coded numbers -/

theorem validPortfolioState_recommended : ValidPortfolioState [0.40, 0.35, 0.25] := by
  constructor
  · intro w hw
    simp only [List.mem_cons, List.mem_singleton, List.not_mem_nil, or_false] at hw
    rcases hw with rfl | rfl | rfl <;> norm_num
  · norm_num

theorem validPortfolioState_current : ValidPortfolioState [0.33, 0.33, 0.34] := by
  constructor
  · intro w hw
    simp only [List.mem_cons, List.mem_singleton, List.not_mem_nil, or_false] at hw
    rcases hw with rfl | rfl | rfl <;> norm_num
  · norm_num

/-! ## Binary64 rounding -/

theorem roundTiesEven_close (x : ℚ) : |(roundTiesEven x : ℚ) - x| ≤ 1 / 2 := by
  have h1 : ((Rat.floor x : ℤ) : ℚ) ≤ x := Int.floor_le x
  have h2 : x < ((Rat.floor x : ℤ) : ℚ) + 1 := Int.lt_floor_add_one x
  unfold roundTiesEven
  simp only
  split_ifs with c1 c2 c3
  · rw [abs_le]
    constructor <;> linarith
  · rw [abs_le]
    push_cast
    constructor <;> linarith
  · rw [abs_le]
    constructor <;> linarith
  · rw [abs_le]
    push_cast
    constructor <;> linarith

theorem roundDouble_zero : roundDouble 0 = 0 := by
  have h : roundTiesEven 0 = 0 := by
    unfold roundTiesEven
    have hf : Rat.floor 0 = 0 := by
      show ⌊(0 : ℚ)⌋ = 0
      exact Int.floor_zero
    simp [hf]
  unfold roundDouble
  rw [zero_div, h]
  simp

theorem ulp_le (x : ℚ) (hx : x ≠ 0) :
    (2 : ℚ) ^ (binade x - 52) ≤ 2 ^ (-52 : ℤ) * |x| + 2 ^ (-1074 : ℤ) := by
  have hpos : (0 : ℚ) < |x| := abs_pos.mpr hx
  have h2 : (0 : ℚ) < 2 := by norm_num
  unfold binade
  rcases le_total (Int.log 2 |x|) (-1022) with hle | hge
  · rw [max_eq_right hle]
    have : (0 : ℚ) ≤ 2 ^ (-52 : ℤ) * |x| := by positivity
    have e : ((-1022 : ℤ) - 52) = -1074 := by norm_num
    rw [e]
    linarith
  · rw [max_eq_left hge]
    have hlog : (2 : ℚ) ^ Int.log 2 |x| ≤ |x| := by
      have := Int.zpow_log_le_self (b := 2) (r := |x|) (by norm_num) hpos
      simpa using this
    have e : (2 : ℚ) ^ (Int.log 2 |x| - 52) = 2 ^ (-52 : ℤ) * 2 ^ Int.log 2 |x| := by
      rw [← zpow_add₀ (by norm_num : (2 : ℚ) ≠ 0)]
      congr 1
      ring
    rw [e]
    have hk : (0 : ℚ) < 2 ^ (-52 : ℤ) := by positivity
    have hz : (0 : ℚ) < 2 ^ (-1074 : ℤ) := by positivity
    nlinarith

theorem roundDouble_close (x : ℚ) :
    |roundDouble x - x| ≤ 2 ^ (-53 : ℤ) * |x| + 2 ^ (-1075 : ℤ) := by
  by_cases hx : x = 0
  · subst hx
    rw [roundDouble_zero]
    simp
    positivity
  · have hu : (0 : ℚ) < 2 ^ (binade x - 52) := by positivity
    have hr := roundTiesEven_close (x / 2 ^ (binade x - 52))
    have e : roundDouble x - x
        = ((roundTiesEven (x / 2 ^ (binade x - 52)) : ℚ) - x / 2 ^ (binade x - 52))
          * 2 ^ (binade x - 52) := by
      unfold roundDouble
      field_simp
    rw [e, abs_mul, abs_of_pos hu]
    have hule := ulp_le x hx
    have e53 : (2 : ℚ) ^ (-53 : ℤ) = 2 ^ (-52 : ℤ) / 2 := by norm_num
    have e1075 : (2 : ℚ) ^ (-1075 : ℤ) = 2 ^ (-1074 : ℤ) / 2 := by
      rw [show (-1075 : ℤ) = -1074 - 1 by norm_num, zpow_sub₀ (by norm_num : (2 : ℚ) ≠ 0)]
      norm_num
    rw [e53, e1075]
    have hstep := mul_le_mul_of_nonneg_right hr hu.le
    have hstep2 := mul_le_mul_of_nonneg_left hule (by norm_num : (0 : ℚ) ≤ 1 / 2)
    refine le_trans hstep (le_trans hstep2 (le_of_eq ?_))
    ring

/-- Within a million in magnitude binary64 rounding stays finite and moves a
value by at most `10^-9`. -/
theorem toDouble_near (x : ℚ) (hx : |x| ≤ 10 ^ 6) :
    ∃ d, toDouble x = .fin d ∧ |d - x| ≤ 1 / 10 ^ 9 := by
  have hc := roundDouble_close x
  have hb : (2 : ℚ) ^ (-53 : ℤ) * |x| + 2 ^ (-1075 : ℤ) ≤ 1 / 10 ^ 9 := by
    have h53 : (2 : ℚ) ^ (-53 : ℤ) ≤ 1 / 10 ^ 15 := by norm_num
    have h1075 : (2 : ℚ) ^ (-1075 : ℤ) ≤ 1 / 10 ^ 15 := by norm_num
    have hk : (0 : ℚ) ≤ 2 ^ (-53 : ℤ) := by positivity
    nlinarith [abs_nonneg x]
  have hclose : |roundDouble x - x| ≤ 1 / 10 ^ 9 := le_trans hc hb
  refine ⟨roundDouble x, ?_, hclose⟩
  have hsmall : |roundDouble x| ≤ 10 ^ 6 + 1 := by
    have := abs_sub_abs_le_abs_sub (roundDouble x) x
    have h9 : (1 : ℚ) / 10 ^ 9 ≤ 1 := by norm_num
    linarith
  have hnot : ¬ ((2 : ℚ) ^ 1024 ≤ |roundDouble x|) := by
    have hbig : (10 : ℚ) ^ 6 + 1 < 2 ^ 1024 := by norm_num
    intro h
    linarith
  unfold toDouble
  rw [if_neg hnot]

theorem toDouble_zero : toDouble 0 = .fin 0 := by
  have hnot : ¬ ((2 : ℚ) ^ 1024 ≤ |roundDouble 0|) := by
    rw [roundDouble_zero]
    norm_num
  unfold toDouble
  rw [if_neg hnot, roundDouble_zero]


/-! ## Fixed notation -/

theorem toFixed_of_bounds (d : ℚ) (n f : Nat) (h0 : 0 ≤ d)
    (h1 : (n : ℚ) ≤ d * 10 ^ f + 1 / 2) (h2 : d * 10 ^ f + 1 / 2 < (n : ℚ) + 1) :
    toFixed d f = fixedDigits f n ∧ fixedValue d f = (n : ℚ) / 10 ^ f := by
  have hfloor : Rat.floor (d * 10 ^ f + 1 / 2) = (n : ℤ) := by
    show ⌊d * 10 ^ f + 1 / 2⌋ = (n : ℤ)
    rw [Int.floor_eq_iff]
    push_cast
    exact ⟨h1, h2⟩
  have hr : roundHalfUp d f = n := by
    unfold roundHalfUp
    rw [hfloor]
    exact Int.toNat_natCast n
  have hneg : ¬ (d < 0) := not_lt.mpr h0
  constructor
  · rw [toFixed, if_neg hneg, hr]
  · rw [fixedValue, if_neg hneg, hr]

theorem toFixed_of_bounds_neg (d : ℚ) (n f : Nat) (h0 : d < 0)
    (h1 : (n : ℚ) ≤ -d * 10 ^ f + 1 / 2) (h2 : -d * 10 ^ f + 1 / 2 < (n : ℚ) + 1) :
    toFixed d f = "-" ++ fixedDigits f n ∧ fixedValue d f = -((n : ℚ) / 10 ^ f) := by
  have hfloor : Rat.floor (-d * 10 ^ f + 1 / 2) = (n : ℤ) := by
    show ⌊-d * 10 ^ f + 1 / 2⌋ = (n : ℤ)
    rw [Int.floor_eq_iff]
    push_cast
    exact ⟨h1, h2⟩
  have hr : roundHalfUp (-d) f = n := by
    unfold roundHalfUp
    rw [hfloor]
    exact Int.toNat_natCast n
  constructor
  · rw [toFixed, if_pos h0, hr]
  · rw [fixedValue, if_pos h0, hr]

/-- The text and the denoted number of `toFixed(2)` on a value within 0.004 of
the positive two-decimal number `n / 100`. -/
theorem numToFixed_two_near (q : ℚ) (n : Nat) (hn : 1 ≤ n) (hq : |q| ≤ 10 ^ 5)
    (hnear : |q - (n : ℚ) / 100| ≤ 4 / 1000) :
    numToFixed (.fin q) 2 = some (fixedDigits 2 n) ∧ numGt (numFixedValue (.fin q) 2) 0 = true := by
  obtain ⟨d, hd, hdq⟩ := toDouble_near q (le_trans hq (by norm_num))
  have hn1 : (1 : ℚ) ≤ (n : ℚ) := by exact_mod_cast hn
  rw [abs_le] at hnear hdq hq
  have hd0 : 0 ≤ d := by linarith
  have hbig : ¬ ((10 : ℚ) ^ 21 ≤ |d|) := by
    rw [abs_of_nonneg hd0]
    intro h
    have : (10 : ℚ) ^ 6 + 1 < 10 ^ 21 := by norm_num
    linarith
  obtain ⟨ht, hv⟩ := toFixed_of_bounds d n 2 hd0 (by norm_num; linarith) (by norm_num; linarith)
  have hv2 : fixedValue d 2 = (n : ℚ) / 100 := by
    rw [hv]
    norm_num
  constructor
  · simp only [numToFixed, asDouble, hd, if_neg hbig, ht]
  · have hvq : |(n : ℚ) / 100| ≤ 10 ^ 6 := by
      rw [abs_le]
      constructor <;> linarith
    obtain ⟨z, hz, hzq⟩ := toDouble_near ((n : ℚ) / 100) hvq
    rw [abs_le] at hzq
    have hzpos : 0 < z := by linarith
    simp only [numFixedValue, asDouble, hd, hv2, hz, numGt]
    exact decide_eq_true hzpos

/-- The text and the denoted number of `toFixed(2)` on a value within 0.004 of
the negative two-decimal number `-(n / 100)`. -/
theorem numToFixed_two_near_neg (q : ℚ) (n : Nat) (hn : 1 ≤ n) (hq : |q| ≤ 10 ^ 5)
    (hnear : |q + (n : ℚ) / 100| ≤ 4 / 1000) :
    numToFixed (.fin q) 2 = some ("-" ++ fixedDigits 2 n) ∧
      numGt (numFixedValue (.fin q) 2) 0 = false := by
  obtain ⟨d, hd, hdq⟩ := toDouble_near q (le_trans hq (by norm_num))
  have hn1 : (1 : ℚ) ≤ (n : ℚ) := by exact_mod_cast hn
  rw [abs_le] at hnear hdq hq
  have hd0 : d < 0 := by linarith
  have hbig : ¬ ((10 : ℚ) ^ 21 ≤ |d|) := by
    rw [abs_of_neg hd0]
    intro h
    have : (10 : ℚ) ^ 6 + 1 < 10 ^ 21 := by norm_num
    linarith
  obtain ⟨ht, hv⟩ := toFixed_of_bounds_neg d n 2 hd0 (by norm_num; linarith)
    (by norm_num; linarith)
  have hv2 : fixedValue d 2 = -((n : ℚ) / 100) := by
    rw [hv]
    norm_num
  constructor
  · simp only [numToFixed, asDouble, hd, if_neg hbig, ht]
  · have hvq : |(-((n : ℚ) / 100))| ≤ 10 ^ 6 := by
      rw [abs_le]
      constructor <;> linarith
    obtain ⟨z, hz, hzq⟩ := toDouble_near (-((n : ℚ) / 100)) hvq
    rw [abs_le] at hzq
    have hzneg : ¬ (0 < z) := by
      intro h
      linarith
    simp only [numFixedValue, asDouble, hd, hv2, hz, numGt]
    exact decide_eq_false hzneg

/-- The difference of two values within a thousand in magnitude is finite and
within `3 * 10^-9` of the exact difference. -/
theorem numSub_near (a b : ℚ) (ha : |a| ≤ 1000) (hb : |b| ≤ 1000) :
    ∃ d, numSub (.fin a) (.fin b) = .fin d ∧ |d - (a - b)| ≤ 3 / 10 ^ 9 := by
  obtain ⟨a2, ha2, hae⟩ := toDouble_near a (by linarith)
  obtain ⟨b2, hb2, hbe⟩ := toDouble_near b (by linarith)
  rw [abs_le] at ha hb hae hbe
  have hdiff : |a2 - b2| ≤ 10 ^ 6 := by
    rw [abs_le]
    constructor <;> linarith
  obtain ⟨d, hd, hde⟩ := toDouble_near (a2 - b2) hdiff
  rw [abs_le] at hde
  refine ⟨d, ?_, ?_⟩
  · simp only [numSub, asDouble, ha2, hb2, hd]
  · rw [abs_le]
    constructor <;> linarith

/-- The product of a value within a thousand in magnitude and the literal 100 is
finite and within `2 * 10^-6` of the exact product. -/
theorem numMul_hundred_near (a : ℚ) (ha : |a| ≤ 1000) :
    ∃ d, numMul (.fin a) (.fin 100) = .fin d ∧ |d - a * 100| ≤ 2 / 10 ^ 6 := by
  obtain ⟨a2, ha2, hae⟩ := toDouble_near a (by linarith)
  obtain ⟨h2, hh2, hhe⟩ := toDouble_near 100 (by norm_num)
  have hh2abs : |h2| ≤ 101 := by
    rw [abs_le] at hhe ⊢
    constructor <;> linarith
  have p1 : |(a2 - a) * h2| ≤ 1 / 10 ^ 9 * 101 := by
    rw [abs_mul]
    exact mul_le_mul hae hh2abs (abs_nonneg _) (by norm_num)
  have p2 : |a * (h2 - 100)| ≤ 1000 * (1 / 10 ^ 9) := by
    rw [abs_mul]
    exact mul_le_mul ha hhe (abs_nonneg _) (by norm_num)
  have e : a2 * h2 - a * 100 = (a2 - a) * h2 + a * (h2 - 100) := by ring
  rw [abs_le] at p1 p2 ha
  have hprod : |a2 * h2| ≤ 10 ^ 6 := by
    rw [abs_le]
    constructor <;> linarith
  obtain ⟨d, hd, hde⟩ := toDouble_near (a2 * h2) hprod
  rw [abs_le] at hde
  refine ⟨d, ?_, ?_⟩
  · simp only [numMul, asDouble, ha2, hh2, hd]
  · rw [abs_le]
    constructor <;> linarith

theorem numSub_nan_right (a : JsNumber) : numSub a .nan = .nan := by
  unfold numSub
  cases h : asDouble a <;> simp [asDouble]

theorem numMul_nan_left (b : JsNumber) : numMul .nan b = .nan := by
  unfold numMul
  cases h : asDouble b <;> simp [asDouble]


theorem fixedDigits_two_has_point (n : Nat) : '.' ∈ (fixedDigits 2 n).data := by
  simp [fixedDigits]

theorem toFixed_two_has_point (x : ℚ) : '.' ∈ (toFixed x 2).data := by
  unfold toFixed
  split_ifs
  · rw [String.data_append]
    exact List.mem_append_right _ (fixedDigits_two_has_point _)
  · exact fixedDigits_two_has_point _

/-- No text that `toFixed(2)` prints is empty or reads `N/A`. -/
theorem numToFixed_two_ne (n : JsNumber) (text : String) (h : numToFixed n 2 = some text) :
    text ≠ "" ∧ text ≠ "N/A" := by
  unfold numToFixed at h
  cases hn : asDouble n with
  | nan =>
    rw [hn] at h
    simp only [Option.some.injEq] at h
    subst h
    exact ⟨by decide, by decide⟩
  | inf negative =>
    rw [hn] at h
    cases negative <;> simp only [Option.some.injEq] at h <;> subst h <;>
      exact ⟨by decide, by decide⟩
  | fin x =>
    rw [hn] at h
    simp only at h
    split_ifs at h
    simp only [Option.some.injEq] at h
    subst h
    have hp := toFixed_two_has_point x
    constructor
    · intro he
      rw [he] at hp
      simp at hp
    · intro he
      rw [he] at hp
      simp at hp

/-- The Sharpe Ratio cell shows `N/A` exactly for a stored `sharpe_ratio` that
is `undefined` or `null`. -/
theorem sharpeCell_na_iff (stored : JsVal) :
    sharpeCell stored = some (.ok "N/A") ↔
      (getProp stored "sharpe_ratio" = .ok .undefined ∨
        getProp stored "sharpe_ratio" = .ok .null) := by
  unfold sharpeCell
  cases hg : getProp stored "sharpe_ratio" with
  | error message => simp
  | ok v =>
    cases v with
    | undefined => simp
    | null => simp
    | num q =>
      simp only [Except.ok.injEq, or_self, iff_false, reduceCtorEq]
      intro hc
      cases ht : numToFixed (.fin q) 2 with
      | none =>
        rw [ht] at hc
        simp at hc
      | some text =>
        rw [ht] at hc
        obtain ⟨h1, h2⟩ := numToFixed_two_ne _ text ht
        simp only [Option.map_some', Option.some.injEq, Except.ok.injEq, if_neg h1] at hc
        exact h2 hc
    | bool b => simp
    | str t => simp
    | arr xs => simp
    | obj ps => simp

theorem numToFixed_fallback_sharpe : numToFixed (.fin 0.45) 2 = some "0.45" := by
  have h := (numToFixed_two_near 0.45 45 (by norm_num) (by norm_num [abs_le]) (by norm_num [abs_le])).1
  rw [h]
  rfl

/-! ## The optimization request -/

/-- C1: whenever the optimization request fails (the fetch rejects, the status
is not OK, or the body of an OK response does not parse), `handleOptimization`
ends with `optimizationResult` equal to one and the same hard-coded fallback
object, with `optimizationLoading` false and `error` null. -/
theorem C1_failed_request_stores_fallback (r : FetchOutcome) (s : AppState)
    (h : requestFails r = true) :
    (handleOptimization r s).optimizationResult =
        .obj [("recommended_weights",
                .obj [("AAPL", .num 0.40), ("MSFT", .num 0.35), ("GOOGL", .num 0.25)]),
              ("current_weights",
                .obj [("AAPL", .num 0.33), ("MSFT", .num 0.33), ("GOOGL", .num 0.34)]),
              ("expected_return", .num 0.098),
              ("expected_risk", .num 0.164),
              ("sharpe_ratio", .num 0.45),
              ("rationale", .str "Based on your high disposition effect (65%) and loss aversion (72%), the optimization reduces concentration risk and increases diversification to minimize emotional decision-making.")] ∧
      (handleOptimization r s).optimizationLoading = false ∧
      (handleOptimization r s).error = none := by
  match r, h with
  | .rejected _, _ => exact ⟨rfl, rfl, rfl⟩
  | .response false _, _ => exact ⟨rfl, rfl, rfl⟩
  | .response true (.error _), _ => exact ⟨rfl, rfl, rfl⟩

/-- C1 at a response with status 500 and an unparsable body, from the initial
state. -/
theorem C1_failed_request_stores_fallback_witness :
    requestFails (.response false (.error "Unexpected end of JSON input")) = true ∧
      (handleOptimization (.response false (.error "Unexpected end of JSON input"))
          initialState).optimizationResult =
        (handleOptimization (.rejected "Failed to fetch") initialState).optimizationResult :=
  ⟨rfl,
    ((C1_failed_request_stores_fallback
        (.response false (.error "Unexpected end of JSON input")) initialState rfl).1).trans
      ((C1_failed_request_stores_fallback (.rejected "Failed to fetch") initialState rfl).1).symm⟩

/-- C2 as stated fails: for an OK response in the OptimizationResult shape of
the specification, with all five fields present and non-zero, the stored
`recommended_weights`, `expected_risk` and `rationale` are not the response's. -/
theorem C2_counterexample :
    getProp (handleOptimization (.response true (.ok specShapedBody)) initialState).optimizationResult
        "recommended_weights" ≠ getProp specShapedBody "recommended_weights" ∧
      getProp (handleOptimization (.response true (.ok specShapedBody)) initialState).optimizationResult
        "expected_risk" ≠ getProp specShapedBody "expected_risk" ∧
      getProp (handleOptimization (.response true (.ok specShapedBody)) initialState).optimizationResult
        "rationale" ≠ getProp specShapedBody "rationale" := by
  have h1 : getProp (handleOptimization (.response true (.ok specShapedBody))
        initialState).optimizationResult "recommended_weights"
      = .ok (.obj [("AAPL", .num 0.40), ("MSFT", .num 0.35), ("GOOGL", .num 0.25)]) := rfl
  have h2 : getProp specShapedBody "recommended_weights"
      = .ok (.obj [("AAPL", .num 0.50), ("MSFT", .num 0.30), ("GOOGL", .num 0.20)]) := rfl
  have h3 : getProp (handleOptimization (.response true (.ok specShapedBody))
        initialState).optimizationResult "expected_risk" = .ok (.num 0.164) := rfl
  have h4 : getProp specShapedBody "expected_risk" = .ok (.num 0.20) := rfl
  have h5 : getProp (handleOptimization (.response true (.ok specShapedBody))
        initialState).optimizationResult "rationale" = .ok (.str rationaleText) := rfl
  have h6 : getProp specShapedBody "rationale"
      = .ok (.str "Turnover tightened for disposition effect and loss aversion.") := rfl
  rw [h1, h2, h3, h4, h5, h6]
  refine ⟨?_, ?_, ?_⟩
  · simp
    norm_num
  · simp
    norm_num
  · simp [rationaleText]

/-- C2, amended: for every OK response whose body is not `null`, the stored
`expected_return` and `sharpe_ratio` are the response's whenever those are
truthy (present and non-zero); `recommended_weights` is the response's field
`weights` when truthy and `expected_risk` its field `expected_volatility` when
truthy, the hard-coded fallback otherwise; `rationale` is always the fixed
text. -/
theorem C2_ok_response_binding (body : JsVal) (s : AppState)
    (hbody : isNullish body = false)
    (hret : truthy (getPropOpt body "expected_return") = true)
    (hsharpe : truthy (getPropOpt body "sharpe_ratio") = true) :
    getProp (handleOptimization (.response true (.ok body)) s).optimizationResult "expected_return"
        = .ok (getPropOpt body "expected_return") ∧
      getProp (handleOptimization (.response true (.ok body)) s).optimizationResult "sharpe_ratio"
        = .ok (getPropOpt body "sharpe_ratio") ∧
      getProp (handleOptimization (.response true (.ok body)) s).optimizationResult
          "recommended_weights"
        = .ok (jsOr (getPropOpt body "weights")
            (.obj [("AAPL", .num 0.40), ("MSFT", .num 0.35), ("GOOGL", .num 0.25)])) ∧
      getProp (handleOptimization (.response true (.ok body)) s).optimizationResult "expected_risk"
        = .ok (jsOr (getPropOpt body "expected_volatility") (.num 0.164)) ∧
      getProp (handleOptimization (.response true (.ok body)) s).optimizationResult "rationale"
        = .ok (.str rationaleText) := by
  have hm := mockResult_of_not_nullish body hbody
  have hstored : (handleOptimization (.response true (.ok body)) s).optimizationResult
      = .obj (setProp (setProp (setProp (setProp (setProp (setProp (spreadProps body)
        "recommended_weights"
          (jsOr (getPropOpt body "weights")
            (.obj [("AAPL", .num 0.40), ("MSFT", .num 0.35), ("GOOGL", .num 0.25)])))
        "current_weights"
          (.obj [("AAPL", .num 0.33), ("MSFT", .num 0.33), ("GOOGL", .num 0.34)]))
        "expected_return" (jsOr (getPropOpt body "expected_return") (.num 0.098)))
        "expected_risk" (jsOr (getPropOpt body "expected_volatility") (.num 0.164)))
        "sharpe_ratio" (jsOr (getPropOpt body "sharpe_ratio") (.num 0.45)))
        "rationale" (.str rationaleText)) := by
    have ht : optimizationTry (.response true (.ok body)) = mockResult body := rfl
    simp only [handleOptimization, ht, hm]
  rw [hstored]
  simp only [getProp]
  refine ⟨?_, ?_, ?_, ?_, ?_⟩
  · rw [lookupProp_setProp_other _ _ _ _ (by decide),
      lookupProp_setProp_other _ _ _ _ (by decide),
      lookupProp_setProp_other _ _ _ _ (by decide), lookupProp_setProp_same]
    simp [jsOr, hret]
  · rw [lookupProp_setProp_other _ _ _ _ (by decide), lookupProp_setProp_same]
    simp [jsOr, hsharpe]
  · rw [lookupProp_setProp_other _ _ _ _ (by decide),
      lookupProp_setProp_other _ _ _ _ (by decide),
      lookupProp_setProp_other _ _ _ _ (by decide),
      lookupProp_setProp_other _ _ _ _ (by decide),
      lookupProp_setProp_other _ _ _ _ (by decide), lookupProp_setProp_same]
  · rw [lookupProp_setProp_other _ _ _ _ (by decide),
      lookupProp_setProp_other _ _ _ _ (by decide), lookupProp_setProp_same]
  · rw [lookupProp_setProp_same]

/-- C2 at a body with the field names the handler reads. -/
theorem C2_ok_response_binding_witness :
    isNullish engineShapedBody = false ∧
      truthy (getPropOpt engineShapedBody "expected_return") = true ∧
      truthy (getPropOpt engineShapedBody "sharpe_ratio") = true ∧
      getProp (handleOptimization (.response true (.ok engineShapedBody))
          initialState).optimizationResult "expected_return"
        = .ok (getPropOpt engineShapedBody "expected_return") ∧
      getProp (handleOptimization (.response true (.ok engineShapedBody))
          initialState).optimizationResult "sharpe_ratio"
        = .ok (getPropOpt engineShapedBody "sharpe_ratio") :=
  have hret : truthy (getPropOpt engineShapedBody "expected_return") = true := by
    show truthy (.num 0.12) = true
    norm_num [truthy]
  have hsharpe : truthy (getPropOpt engineShapedBody "sharpe_ratio") = true := by
    show truthy (.num 0.60) = true
    norm_num [truthy]
  ⟨rfl, hret, hsharpe,
    (C2_ok_response_binding engineShapedBody initialState rfl hret hsharpe).1,
    (C2_ok_response_binding engineShapedBody initialState rfl hret hsharpe).2.1⟩

/-- C3 as stated fails: for an OK response that leaves `sharpe_ratio` out (the
allocation has zero risk), the stored `sharpe_ratio` is the fallback and the
Sharpe Ratio cell shows `0.45`, not `N/A`. -/
theorem C3_counterexample :
    getPropOpt undefinedSharpeBody "sharpe_ratio" = .undefined ∧
      sharpeCell (handleOptimization (.response true (.ok undefinedSharpeBody))
          initialState).optimizationResult = some (.ok "0.45") ∧
      sharpeCell (handleOptimization (.response true (.ok undefinedSharpeBody))
          initialState).optimizationResult ≠ some (.ok "N/A") := by
  have hs : getProp (handleOptimization (.response true (.ok undefinedSharpeBody))
      initialState).optimizationResult "sharpe_ratio" = .ok (.num 0.45) := rfl
  have hc : sharpeCell (handleOptimization (.response true (.ok undefinedSharpeBody))
      initialState).optimizationResult = some (.ok "0.45") := by
    simp [sharpeCell, hs, numToFixed_fallback_sharpe]
  refine ⟨rfl, hc, ?_⟩
  rw [hc]
  simp

/-- C3, amended: when an OK response with a non-null body has no `sharpe_ratio`
field, the stored `sharpe_ratio` is the fallback `0.45` and the Sharpe Ratio cell
shows `0.45`; and for any stored result the cell shows `N/A` exactly when the
stored `sharpe_ratio` is `undefined` or `null`. -/
theorem C3_absent_sharpe_shows_fallback (body : JsVal) (s : AppState)
    (hbody : isNullish body = false)
    (habsent : getPropOpt body "sharpe_ratio" = .undefined) :
    getProp (handleOptimization (.response true (.ok body)) s).optimizationResult "sharpe_ratio"
        = .ok (.num 0.45) ∧
      sharpeCell (handleOptimization (.response true (.ok body)) s).optimizationResult
        = some (.ok "0.45") ∧
      ∀ stored : JsVal, sharpeCell stored = some (.ok "N/A") ↔
        (getProp stored "sharpe_ratio" = .ok .undefined ∨
          getProp stored "sharpe_ratio" = .ok .null) := by
  have hm := mockResult_of_not_nullish body hbody
  have ht : optimizationTry (.response true (.ok body)) = mockResult body := rfl
  have hs : getProp (handleOptimization (.response true (.ok body)) s).optimizationResult
      "sharpe_ratio" = .ok (.num 0.45) := by
    simp only [handleOptimization, ht, hm, getProp]
    rw [lookupProp_setProp_other _ _ _ _ (by decide), lookupProp_setProp_same, habsent]
    rfl
  refine ⟨hs, ?_, sharpeCell_na_iff⟩
  simp [sharpeCell, hs, numToFixed_fallback_sharpe]

/-- C3, amended, at the riskless body from the initial state. -/
theorem C3_absent_sharpe_shows_fallback_witness :
    isNullish undefinedSharpeBody = false ∧
      getPropOpt undefinedSharpeBody "sharpe_ratio" = .undefined ∧
      getProp (handleOptimization (.response true (.ok undefinedSharpeBody))
          initialState).optimizationResult "sharpe_ratio" = .ok (.num 0.45) :=
  ⟨rfl, rfl, (C3_absent_sharpe_shows_fallback undefinedSharpeBody initialState rfl rfl).1⟩

/-- C4: the hard-coded `recommended_weights` (0.40, 0.35, 0.25) and
`current_weights` (0.33, 0.33, 0.34) are valid PortfolioStates, every weight
non-negative and the sum exactly one, both in the copy of the `try` block
(stored for a response that is not OK) and in the copy of the `catch` block
(stored for a rejected fetch). -/
theorem C4_hard_coded_weights_valid (body : Except String JsVal) (message : String)
    (s : AppState) :
    (weightsAt (handleOptimization (.response false body) s).optimizationResult
          "recommended_weights" = [0.40, 0.35, 0.25] ∧
        ValidPortfolioState (weightsAt
          (handleOptimization (.response false body) s).optimizationResult "recommended_weights")) ∧
      (weightsAt (handleOptimization (.response false body) s).optimizationResult
          "current_weights" = [0.33, 0.33, 0.34] ∧
        ValidPortfolioState (weightsAt
          (handleOptimization (.response false body) s).optimizationResult "current_weights")) ∧
      (weightsAt (handleOptimization (.rejected message) s).optimizationResult
          "recommended_weights" = [0.40, 0.35, 0.25] ∧
        ValidPortfolioState (weightsAt
          (handleOptimization (.rejected message) s).optimizationResult "recommended_weights")) ∧
      (weightsAt (handleOptimization (.rejected message) s).optimizationResult
          "current_weights" = [0.33, 0.33, 0.34] ∧
        ValidPortfolioState (weightsAt
          (handleOptimization (.rejected message) s).optimizationResult "current_weights")) := by
  have h1 : weightsAt (handleOptimization (.response false body) s).optimizationResult
      "recommended_weights" = [0.40, 0.35, 0.25] := rfl
  have h2 : weightsAt (handleOptimization (.response false body) s).optimizationResult
      "current_weights" = [0.33, 0.33, 0.34] := rfl
  have h3 : weightsAt (handleOptimization (.rejected message) s).optimizationResult
      "recommended_weights" = [0.40, 0.35, 0.25] := rfl
  have h4 : weightsAt (handleOptimization (.rejected message) s).optimizationResult
      "current_weights" = [0.33, 0.33, 0.34] := rfl
  rw [h1, h2, h3, h4]
  exact ⟨⟨rfl, validPortfolioState_recommended⟩, ⟨rfl, validPortfolioState_current⟩,
    ⟨rfl, validPortfolioState_recommended⟩, ⟨rfl, validPortfolioState_current⟩⟩

/-- C7, the code at the fallback: the stored fallback `recommended_weights`
(0.40, 0.35, 0.25) is not less concentrated than `current_weights`
(0.33, 0.33, 0.34) but more: its largest weight 0.40 exceeds 0.34 and its sum of
squared weights 0.345 exceeds 0.3334, in the `catch` copy and in the `try` copy
alike, although the stored rationale says concentration is reduced. -/
theorem C7_fallback_more_concentrated :
    weightsAt (handleOptimization (.rejected "Failed to fetch") initialState).optimizationResult
        "recommended_weights" = [0.40, 0.35, 0.25] ∧
      weightsAt (handleOptimization (.rejected "Failed to fetch") initialState).optimizationResult
        "current_weights" = [0.33, 0.33, 0.34] ∧
      weightsAt (handleOptimization (.response false (.ok .null)) initialState).optimizationResult
        "recommended_weights" = [0.40, 0.35, 0.25] ∧
      weightsAt (handleOptimization (.response false (.ok .null)) initialState).optimizationResult
        "current_weights" = [0.33, 0.33, 0.34] ∧
      largestWeight [0.40, 0.35, 0.25] = 0.40 ∧
      largestWeight [0.33, 0.33, 0.34] = 0.34 ∧
      sumSquares [0.40, 0.35, 0.25] = 0.345 ∧
      sumSquares [0.33, 0.33, 0.34] = 0.3334 ∧
      largestWeight [0.33, 0.33, 0.34] < largestWeight [0.40, 0.35, 0.25] ∧
      sumSquares [0.33, 0.33, 0.34] < sumSquares [0.40, 0.35, 0.25] ∧
      Contains catchRationaleText "reduces concentration risk and increases diversification" := by
  have m1 : largestWeight [0.40, 0.35, 0.25] = 0.40 := by
    norm_num [largestWeight, max_def]
  have m2 : largestWeight [0.33, 0.33, 0.34] = 0.34 := by
    norm_num [largestWeight, max_def]
  have q1 : sumSquares [0.40, 0.35, 0.25] = 0.345 := by
    norm_num [sumSquares]
  have q2 : sumSquares [0.33, 0.33, 0.34] = 0.3334 := by
    norm_num [sumSquares]
  refine ⟨rfl, rfl, rfl, rfl, m1, m2, q1, q2, ?_, ?_, ?_⟩
  · rw [m1, m2]
    norm_num
  · rw [q1, q2]
    norm_num
  · exact ⟨"Based on your high disposition effect (65%) and loss aversion (72%), the optimization ".toList,
      " to minimize emotional decision-making.".toList, rfl⟩

/-- Whatever the request does, the `try` block either throws or yields an
object whose last written property is the fixed rationale. -/
theorem optimizationTry_rationale (r : FetchOutcome) :
    (∃ message, optimizationTry r = .error message) ∨
      ∃ ps, optimizationTry r = .ok (.obj (setProp ps "rationale" (.str rationaleText))) := by
  have key : ∀ v : JsVal, (∃ message, mockResult v = .error message) ∨
      ∃ ps, mockResult v = .ok (.obj (setProp ps "rationale" (.str rationaleText))) := by
    intro v
    cases hv : isNullish v
    · exact Or.inr ⟨_, mockResult_of_not_nullish v hv⟩
    · exact Or.inl (mockResult_of_nullish v hv)
  match r with
  | .rejected message => exact Or.inl ⟨message, rfl⟩
  | .response false _ => exact key (.obj [])
  | .response true (.error message) => exact Or.inl ⟨message, rfl⟩
  | .response true (.ok v) => exact key v

/-- C8: for every outcome of the optimization request (any OK body, a status
that is not OK, a rejected fetch or an unparsable body) and every prior state,
the rationale of the stored `optimizationResult` is a text that contains both
the phrase "disposition effect" and the phrase "loss aversion". -/
theorem C8_rationale_names_both_biases (r : FetchOutcome) (s : AppState) :
    ∃ text, getProp (handleOptimization r s).optimizationResult "rationale" = .ok (.str text) ∧
      Contains text "disposition effect" ∧ Contains text "loss aversion" := by
  have c1 : Contains rationaleText "disposition effect" :=
    ⟨"Based on your high ".toList, " (65%) and loss aversion (72%), the optimization reduces concentration risk and increases diversification to minimize emotional decision-making.".toList, rfl⟩
  have c2 : Contains rationaleText "loss aversion" :=
    ⟨"Based on your high disposition effect (65%) and ".toList, " (72%), the optimization reduces concentration risk and increases diversification to minimize emotional decision-making.".toList, rfl⟩
  rcases optimizationTry_rationale r with ⟨message, hm⟩ | ⟨ps, hps⟩
  · refine ⟨catchRationaleText, ?_, c1, c2⟩
    simp only [handleOptimization, hm]
    rfl
  · refine ⟨rationaleText, ?_, c1, c2⟩
    simp only [handleOptimization, hps, getProp]
    rw [lookupProp_setProp_same]

/-- C9, the code at an OK response whose `expected_return` and `sharpe_ratio`
are present with the value `0`: the stored result carries the fallbacks 0.098
and 0.45 instead of the response's values. -/
theorem C9_zero_fields_replaced_by_fallback :
    getProp zeroReturnBody "expected_return" = .ok (.num 0) ∧
      getProp zeroReturnBody "sharpe_ratio" = .ok (.num 0) ∧
      getProp (handleOptimization (.response true (.ok zeroReturnBody))
          initialState).optimizationResult "expected_return" = .ok (.num 0.098) ∧
      getProp (handleOptimization (.response true (.ok zeroReturnBody))
          initialState).optimizationResult "sharpe_ratio" = .ok (.num 0.45) ∧
      (JsVal.num 0.098 ≠ .num 0) ∧ (JsVal.num 0.45 ≠ .num 0) := by
  have hm := mockResult_of_not_nullish zeroReturnBody rfl
  have ht : optimizationTry (.response true (.ok zeroReturnBody)) = mockResult zeroReturnBody := rfl
  have z1 : getPropOpt zeroReturnBody "expected_return" = .num 0 := rfl
  have z2 : getPropOpt zeroReturnBody "sharpe_ratio" = .num 0 := rfl
  have hz : jsOr (.num 0) (.num 0.098) = .num 0.098 := by simp [jsOr, truthy]
  have hz2 : jsOr (.num 0) (.num 0.45) = .num 0.45 := by simp [jsOr, truthy]
  refine ⟨rfl, rfl, ?_, ?_, ?_, ?_⟩
  · simp only [handleOptimization, ht, hm, getProp]
    rw [lookupProp_setProp_other _ _ _ _ (by decide),
      lookupProp_setProp_other _ _ _ _ (by decide),
      lookupProp_setProp_other _ _ _ _ (by decide), lookupProp_setProp_same, z1, hz]
  · simp only [handleOptimization, ht, hm, getProp]
    rw [lookupProp_setProp_other _ _ _ _ (by decide), lookupProp_setProp_same, z2, hz2]
  · simp
    norm_num
  · simp
    norm_num

/-! ## Loading the dashboard -/

/-- C5: when both bodies parse and the market body is not nullish, the bias
score set that `loadData` stores has exactly the eight enumerated bias names as
its keys, every value is a number, and every score lies in `[0, 1]`. -/
theorem C5_bias_scores_valid (ok1 ok2 : Bool) (marketJson sentimentJson : JsVal)
    (s : AppState) (h : isNullish marketJson = false) :
    keysOf (loadData (.response ok1 (.ok marketJson)) (.response ok2 (.ok sentimentJson))
          s).biasScores
        = ["disposition_effect", "loss_aversion", "overconfidence", "recency_bias",
            "herding_behavior", "confirmation_bias", "anchoring_bias", "regret_aversion"] ∧
      (numEntries (loadData (.response ok1 (.ok marketJson)) (.response ok2 (.ok sentimentJson))
          s).biasScores).map Prod.fst
        = keysOf (loadData (.response ok1 (.ok marketJson)) (.response ok2 (.ok sentimentJson))
          s).biasScores ∧
      ∀ p ∈ numEntries (loadData (.response ok1 (.ok marketJson))
          (.response ok2 (.ok sentimentJson)) s).biasScores, 0 ≤ p.2 ∧ p.2 ≤ 1 := by
  rw [loadData_of_parsed ok1 ok2 marketJson sentimentJson s h]
  refine ⟨rfl, rfl, ?_⟩
  intro p hp
  have hn : numEntries biasScoresLiteral =
      [("disposition_effect", 0.65), ("loss_aversion", 0.72), ("overconfidence", 0.48),
        ("recency_bias", 0.55), ("herding_behavior", 0.38), ("confirmation_bias", 0.42),
        ("anchoring_bias", 0.61), ("regret_aversion", 0.33)] := rfl
  change p ∈ numEntries biasScoresLiteral at hp
  rw [hn] at hp
  simp only [List.mem_cons, List.mem_singleton, List.not_mem_nil, or_false] at hp
  rcases hp with rfl | rfl | rfl | rfl | rfl | rfl | rfl | rfl <;> norm_num

/-- C5 at an empty market payload and the neutral sentiment, from the initial
state. -/
theorem C5_bias_scores_valid_witness :
    isNullish (.obj [("data", .arr [])]) = false ∧
      keysOf (loadData (.response true (.ok (.obj [("data", .arr [])])))
          (.response true (.ok (.obj [("sentiment_score", .num 0)]))) initialState).biasScores
        = ["disposition_effect", "loss_aversion", "overconfidence", "recency_bias",
            "herding_behavior", "confirmation_bias", "anchoring_bias", "regret_aversion"] :=
  ⟨rfl, (C5_bias_scores_valid true true (.obj [("data", .arr [])])
    (.obj [("sentiment_score", .num 0)]) initialState rfl).1⟩

/-- C6: the two biases that the recommendation alert and the rationale name as
high, disposition effect (65%) and loss aversion (72%), are the two highest
scores of the set `loadData` stores (every other score is below both), both
exceed the threshold 0.6, and the percentages in the two texts are the scores
times 100. -/
theorem C6_named_biases_are_top_two (ok1 ok2 : Bool) (marketJson sentimentJson : JsVal)
    (s : AppState) (h : isNullish marketJson = false) :
    getPropOpt (loadData (.response ok1 (.ok marketJson)) (.response ok2 (.ok sentimentJson))
          s).biasScores "disposition_effect" = .num 0.65 ∧
      getPropOpt (loadData (.response ok1 (.ok marketJson)) (.response ok2 (.ok sentimentJson))
          s).biasScores "loss_aversion" = .num 0.72 ∧
      (numEntries (loadData (.response ok1 (.ok marketJson)) (.response ok2 (.ok sentimentJson))
          s).biasScores).length = 8 ∧
      (∀ p ∈ numEntries (loadData (.response ok1 (.ok marketJson))
          (.response ok2 (.ok sentimentJson)) s).biasScores,
        p.1 ≠ "disposition_effect" → p.1 ≠ "loss_aversion" → p.2 < 0.65 ∧ p.2 < 0.72) ∧
      ((0.6 : ℚ) < 0.65 ∧ (0.6 : ℚ) < 0.72) ∧
      ((0.65 : ℚ) * 100 = 65 ∧ (0.72 : ℚ) * 100 = 72) ∧
      (Contains rationaleText "disposition effect (65%)" ∧
        Contains rationaleText "loss aversion (72%)") ∧
      (Contains recommendationAlertText "disposition effect (65%)" ∧
        Contains recommendationAlertText "loss aversion (72%)") := by
  rw [loadData_of_parsed ok1 ok2 marketJson sentimentJson s h]
  refine ⟨rfl, rfl, rfl, ?_, ⟨by norm_num, by norm_num⟩, ⟨by norm_num, by norm_num⟩,
    ⟨?_, ?_⟩, ⟨?_, ?_⟩⟩
  · intro p hp
    have hn : numEntries biasScoresLiteral =
        [("disposition_effect", 0.65), ("loss_aversion", 0.72), ("overconfidence", 0.48),
          ("recency_bias", 0.55), ("herding_behavior", 0.38), ("confirmation_bias", 0.42),
          ("anchoring_bias", 0.61), ("regret_aversion", 0.33)] := rfl
    change p ∈ numEntries biasScoresLiteral at hp
    rw [hn] at hp
    simp only [List.mem_cons, List.mem_singleton, List.not_mem_nil, or_false] at hp
    rcases hp with rfl | rfl | rfl | rfl | rfl | rfl | rfl | rfl <;> intro h1 h2 <;>
      first
        | exact absurd rfl h1
        | exact absurd rfl h2
        | (constructor <;> norm_num)
  · exact ⟨"Based on your high ".toList, " and loss aversion (72%), the optimization reduces concentration risk and increases diversification to minimize emotional decision-making.".toList, rfl⟩
  · exact ⟨"Based on your high disposition effect (65%) and ".toList, ", the optimization reduces concentration risk and increases diversification to minimize emotional decision-making.".toList, rfl⟩
  · exact ⟨"Your portfolio shows high ".toList, " and loss aversion (72%). Consider rebalancing to reduce emotional trading.".toList, rfl⟩
  · exact ⟨"Your portfolio shows high disposition effect (65%) and ".toList, ". Consider rebalancing to reduce emotional trading.".toList, rfl⟩

/-- C6 at an empty market payload and the neutral sentiment, from the initial
state. -/
theorem C6_named_biases_are_top_two_witness :
    isNullish (.obj [("data", .arr [])]) = false ∧
      getPropOpt (loadData (.response true (.ok (.obj [("data", .arr [])])))
          (.response true (.ok (.obj [("sentiment_score", .num 0)]))) initialState).biasScores
        "loss_aversion" = .num 0.72 :=
  ⟨rfl, (C6_named_biases_are_top_two true true (.obj [("data", .arr [])])
    (.obj [("sentiment_score", .num 0)]) initialState rfl).2.1⟩

/-- C10 as stated fails: with the API absent (both fetches reject), `loadData`
started from the initial state ends with `biasScores` still `null`, not the
hard-coded set. -/
theorem C10_counterexample :
    apiAbsent (.rejected "Failed to fetch") = true ∧
      (loadData (.rejected "Failed to fetch") (.rejected "Failed to fetch")
        initialState).biasScores = .null ∧
      (loadData (.rejected "Failed to fetch") (.rejected "Failed to fetch")
        initialState).biasScores ≠ biasScoresLiteral := by
  refine ⟨rfl, rfl, ?_⟩
  intro hc
  have hnull : (loadData (.rejected "Failed to fetch") (.rejected "Failed to fetch")
      initialState).biasScores = .null := rfl
  rw [hnull, biasScoresLiteral] at hc
  exact JsVal.noConfusion hc

/-- C10, amended: when the API is absent during `loadData` (the market-data or
the sentiment fetch rejects, or a body fails to parse), nothing is substituted
for the bias scores: started from the initial state, `loadData` completes with
`biasScores` still `null`, `loading` false and `error` set to the message of
the failure, which is the market-data request's own when the API is absent for
it, the `TypeError` of reading `data` when the market-data body is nullish, and
the sentiment request's own otherwise. -/
theorem C10_absent_api_leaves_bias_scores_null (market sentiment : FetchOutcome)
    (h : apiAbsent market = true ∨ apiAbsent sentiment = true) :
    (loadData market sentiment initialState).biasScores = .null ∧
      (loadData market sentiment initialState).loading = false ∧
      (∃ message, (loadData market sentiment initialState).error = some message) ∧
      (apiAbsent market = true →
        (loadData market sentiment initialState).error = failureMessage market) ∧
      (∀ marketJson message, fetchJson market = .ok marketJson →
        getProp marketJson "data" = .error message →
          (loadData market sentiment initialState).error = some message) ∧
      (∀ marketJson, fetchJson market = .ok marketJson → isNullish marketJson = false →
        (loadData market sentiment initialState).error = failureMessage sentiment) := by
  match market, sentiment, h with
  | .rejected _, _, _ =>
    refine ⟨rfl, rfl, ⟨_, rfl⟩, fun _ => rfl, ?_, ?_⟩
    · intro marketJson message hm
      simp [fetchJson] at hm
    · intro marketJson hm
      simp [fetchJson] at hm
  | .response _ (.error _), _, _ =>
    refine ⟨rfl, rfl, ⟨_, rfl⟩, fun _ => rfl, ?_, ?_⟩
    · intro marketJson message hm
      simp [fetchJson] at hm
    · intro marketJson hm
      simp [fetchJson] at hm
  | .response _ (.ok marketJson), .rejected _, _ =>
    refine ⟨?_, ?_, ?_, ?_, ?_, ?_⟩
    · cases marketJson <;> rfl
    · cases marketJson <;> rfl
    · cases marketJson <;> exact ⟨_, rfl⟩
    · intro ha
      simp [apiAbsent] at ha
    · intro mj message hm hg
      have hmj : marketJson = mj := by simpa [fetchJson] using hm
      subst hmj
      cases marketJson <;> simp [getProp] at hg <;> subst hg <;> rfl
    · intro mj hm hn
      have hmj : marketJson = mj := by simpa [fetchJson] using hm
      subst hmj
      cases marketJson <;> first | rfl | simp [isNullish] at hn
  | .response _ (.ok marketJson), .response _ (.error _), _ =>
    refine ⟨?_, ?_, ?_, ?_, ?_, ?_⟩
    · cases marketJson <;> rfl
    · cases marketJson <;> rfl
    · cases marketJson <;> exact ⟨_, rfl⟩
    · intro ha
      simp [apiAbsent] at ha
    · intro mj message hm hg
      have hmj : marketJson = mj := by simpa [fetchJson] using hm
      subst hmj
      cases marketJson <;> simp [getProp] at hg <;> subst hg <;> rfl
    · intro mj hm hn
      have hmj : marketJson = mj := by simpa [fetchJson] using hm
      subst hmj
      cases marketJson <;> first | rfl | simp [isNullish] at hn
  | .response _ (.ok _), .response _ (.ok _), h =>
    simp [apiAbsent] at h

/-- C10, amended, at a market request that succeeds and a sentiment fetch that
rejects. -/
theorem C10_absent_api_leaves_bias_scores_null_witness :
    (apiAbsent (.response true (.ok (.obj [("data", .arr [])]))) = true ∨
        apiAbsent (.rejected "Failed to fetch") = true) ∧
      (loadData (.response true (.ok (.obj [("data", .arr [])]))) (.rejected "Failed to fetch")
        initialState).biasScores = .null :=
  ⟨Or.inr rfl, (C10_absent_api_leaves_bias_scores_null
    (.response true (.ok (.obj [("data", .arr [])]))) (.rejected "Failed to fetch")
    (Or.inr rfl)).1⟩

/-- A run of `loadData` that reaches the end of its `try` block stores the
literal of App.jsx. -/
theorem biasScores_of_loadCompletes (market sentiment : FetchOutcome) (s : AppState)
    (h : loadCompletes market sentiment = true) :
    (loadData market sentiment s).biasScores = biasScoresLiteral := by
  match market, sentiment, h with
  | .response ok1 (.ok marketJson), .response ok2 (.ok sentimentJson), h =>
    have hn : isNullish marketJson = false := by simpa [loadCompletes] using h
    rw [loadData_of_parsed ok1 ok2 marketJson sentimentJson s hn]

/-- A run of the old `loadData` that reaches the end of its `try` block stores
the literal of App.old.jsx. -/
theorem old_biasScores_of_loadCompletes (market sentiment : FetchOutcome) (s : AppState)
    (h : loadCompletes market sentiment = true) :
    (AppOld.loadData market sentiment s).biasScores = AppOld.biasScoresLiteral := by
  match market, sentiment, h with
  | .response ok1 (.ok marketJson), .response ok2 (.ok sentimentJson), h =>
    have hn : isNullish marketJson = false := by simpa [loadCompletes] using h
    cases marketJson <;> first | rfl | simp [isNullish] at hn

/-- C11: the bias scores are constants.  Any two runs of `loadData` that
succeed, from any states (so for any selected symbols) and with any contents of
the market-data and sentiment responses, store the same `biasScores`, namely
disposition_effect 0.65, loss_aversion 0.72, overconfidence 0.48, recency_bias
0.55, herding_behavior 0.38, confirmation_bias 0.42, anchoring_bias 0.61 and
regret_aversion 0.33, and `loadData` of App.old.jsx stores the same set. -/
theorem C11_bias_scores_are_constants (market sentiment market2 sentiment2 : FetchOutcome)
    (s s2 : AppState) (h : loadCompletes market sentiment = true)
    (h2 : loadCompletes market2 sentiment2 = true) :
    (loadData market sentiment s).biasScores = (loadData market2 sentiment2 s2).biasScores ∧
      (loadData market sentiment s).biasScores =
        .obj [("disposition_effect", .num 0.65), ("loss_aversion", .num 0.72),
              ("overconfidence", .num 0.48), ("recency_bias", .num 0.55),
              ("herding_behavior", .num 0.38), ("confirmation_bias", .num 0.42),
              ("anchoring_bias", .num 0.61), ("regret_aversion", .num 0.33)] ∧
      (AppOld.loadData market sentiment s).biasScores = (loadData market sentiment s).biasScores := by
  rw [biasScores_of_loadCompletes market sentiment s h,
    biasScores_of_loadCompletes market2 sentiment2 s2 h2,
    old_biasScores_of_loadCompletes market sentiment s h]
  exact ⟨rfl, rfl, rfl⟩

/-- C11 at two runs with different symbols and different responses. -/
theorem C11_bias_scores_are_constants_witness :
    loadCompletes (.response true (.ok (.obj [("data", .arr [])])))
        (.response true (.ok neutralSentiment)) = true ∧
      loadCompletes (.response false (.ok (.str "not found")))
        (.response true (.ok .null)) = true ∧
      (loadData (.response true (.ok (.obj [("data", .arr [])])))
          (.response true (.ok neutralSentiment)) initialState).biasScores =
        (loadData (.response false (.ok (.str "not found"))) (.response true (.ok .null))
          { initialState with symbol := "MSFT" }).biasScores :=
  ⟨rfl, rfl,
    (C11_bias_scores_are_constants (.response true (.ok (.obj [("data", .arr [])])))
      (.response true (.ok neutralSentiment)) (.response false (.ok (.str "not found")))
      (.response true (.ok .null)) initialState { initialState with symbol := "MSFT" }
      rfl rfl).1⟩

/-- C12: the request `handleOptimization` builds is the same for every state of
the component, in particular for every value of `symbol`; the body has method
`behavioral_mvo`, the three distinct assets AAPL, MSFT and GOOGL, and
`constraints` equal to `null`. -/
theorem C12_optimization_request_is_constant (s s2 : AppState) (symbol : String) :
    optimizationRequest s = optimizationRequest s2 ∧
      optimizationRequest { s with symbol := symbol } = optimizationRequest s ∧
      getProp (optimizationRequest s).body "method" = .ok (.str "behavioral_mvo") ∧
      stringsOf (getPropOpt (optimizationRequest s).body "assets")
        = some ["AAPL", "MSFT", "GOOGL"] ∧
      ["AAPL", "MSFT", "GOOGL"] ≠ ([] : List String) ∧
      (["AAPL", "MSFT", "GOOGL"] : List String).Nodup ∧
      "constraints" ∈ keysOf (optimizationRequest s).body ∧
      getProp (optimizationRequest s).body "constraints" = .ok .null := by
  refine ⟨rfl, rfl, rfl, rfl, by simp, by decide, ?_, rfl⟩
  show "constraints" ∈ ["portfolio_id", "assets", "method", "constraints"]
  simp

/-! ## The sentiment card -/

theorem roundHalfUp_zero (f : Nat) : roundHalfUp 0 f = 0 := by
  have h : Rat.floor ((0 : ℚ) * 10 ^ f + 1 / 2) = 0 := by
    show ⌊((0 : ℚ) * 10 ^ f + 1 / 2)⌋ = 0
    rw [Int.floor_eq_iff]
    norm_num
  unfold roundHalfUp
  rw [h]
  rfl

/-- C13: for the neutral SentimentSummary (sentiment_score 0, confidence 0,
volume_mentions 0) the card is shown and renders the neutral state: the label
is the Neutral literal, the score child is 0 with an empty sign, the confidence
text is `0%` with progress value 0, and the mentions child is 0. -/
theorem C13_neutral_sentiment_card :
    sentimentShown neutralSentiment = true ∧
      sentimentLabel neutralSentiment = some neutralLabel ∧
      Contains neutralLabel "Neutral" ∧
      scoreChild neutralSentiment = .num 0 ∧
      scoreSign neutralSentiment = some "" ∧
      confidenceText neutralSentiment = some "0%" ∧
      confidenceProgress neutralSentiment = some (.fin 0) ∧
      mentionsChild neutralSentiment = .num 0 := by
  have hscore : getPropOpt neutralSentiment "sentiment_score" = .num 0 := rfl
  have hconf : getPropOpt neutralSentiment "confidence" = .num 0 := rfl
  have hfixed : toFixed 0 0 = "0" := by
    have h0 : ¬ ((0 : ℚ) < 0) := by norm_num
    rw [toFixed, if_neg h0, roundHalfUp_zero]
    rfl
  have hmul : numMul (.fin 0) (.fin 100) = .fin 0 := by
    obtain ⟨h2, hh2, _⟩ := toDouble_near 100 (by norm_num)
    simp only [numMul, asDouble, toDouble_zero, hh2, zero_mul]
  refine ⟨rfl, ?_, ⟨"ðŸŸ¡ ".toList, [], rfl⟩, rfl, ?_, ?_, ?_, rfl⟩
  · simp only [sentimentLabel, hscore, jsGt, toNumber, numGt]
    norm_num
  · simp only [scoreSign, hscore, jsGt, toNumber, numGt]
    norm_num
  · simp only [confidenceText, confidenceProgress, hconf, toNumber, hmul, Option.bind_eq_bind,
      Option.some_bind, Option.pure_def, bind, pure]
    have htext : numToFixed (.fin 0) 0 = some "0" := by
      have hbig : ¬ ((10 : ℚ) ^ 21 ≤ |(0 : ℚ)|) := by norm_num
      simp only [numToFixed, asDouble, toDouble_zero, if_neg hbig, hfixed]
    rw [htext]
    rfl
  · simp only [confidenceProgress, hconf, toNumber, hmul, Option.bind_eq_bind,
      Option.some_bind, Option.pure_def, bind, pure]

/-- On a numeric score the label expression is the chain of three threshold
tests. -/
theorem sentimentLabel_of_number (sentiment : JsVal) (q : ℚ)
    (h : getPropOpt sentiment "sentiment_score" = .num q) :
    sentimentLabel sentiment = some (if 0.5 < q then veryPositiveLabel
      else if 0 < q then positiveLabel
      else if -0.5 < q then neutralLabel else negativeLabel) := by
  simp only [sentimentLabel, h, jsGt, toNumber, numGt, Option.map_some']
  by_cases c1 : (0.5 : ℚ) < q
  · simp [c1]
  · by_cases c2 : (0 : ℚ) < q
    · simp [c1, c2]
    · by_cases c3 : (-0.5 : ℚ) < q
      · simp [c1, c2, c3]
      · simp [c1, c2, c3]

/-- On a numeric score the sign is a plus exactly above zero. -/
theorem scoreSign_of_number (sentiment : JsVal) (q : ℚ)
    (h : getPropOpt sentiment "sentiment_score" = .num q) :
    scoreSign sentiment = some (if 0 < q then "+" else "") := by
  simp only [scoreSign, h, jsGt, toNumber, numGt, Option.map_some']
  by_cases c : (0 : ℚ) < q
  · simp [c]
  · simp [c]

theorem labels_distinct :
    [negativeLabel, neutralLabel, positiveLabel, veryPositiveLabel].Nodup := by
  decide

/-- C14: on numeric scores the label expression is a total, monotone
classification.  A score above 0.5 is Very Positive, one in (0, 0.5] Positive,
one in (-0.5, 0] Neutral, one at most -0.5 Negative, the four labels being
distinct; for `q1 ≤ q2` the label of `q1` is not above the label of `q2` in the
order Negative, Neutral, Positive, Very Positive; and the sign is a plus exactly
when the label is Positive or Very Positive, empty otherwise. -/
theorem C14_label_is_monotone_classification (s1 s2 : JsVal) (q1 q2 : ℚ)
    (h1 : getPropOpt s1 "sentiment_score" = .num q1)
    (h2 : getPropOpt s2 "sentiment_score" = .num q2) (hle : q1 ≤ q2) :
    ((0.5 < q1 → sentimentLabel s1 = some veryPositiveLabel) ∧
        (0 < q1 → q1 ≤ 0.5 → sentimentLabel s1 = some positiveLabel) ∧
        (-0.5 < q1 → q1 ≤ 0 → sentimentLabel s1 = some neutralLabel) ∧
        (q1 ≤ -0.5 → sentimentLabel s1 = some negativeLabel)) ∧
      [negativeLabel, neutralLabel, positiveLabel, veryPositiveLabel].Nodup ∧
      (∃ l1 l2, sentimentLabel s1 = some l1 ∧ sentimentLabel s2 = some l2 ∧
        labelRank l1 ≤ labelRank l2) ∧
      (scoreSign s1 = some "+" ↔
        (sentimentLabel s1 = some positiveLabel ∨ sentimentLabel s1 = some veryPositiveLabel)) ∧
      (scoreSign s1 = some "+" ∨ scoreSign s1 = some "") := by
  have r0 : labelRank negativeLabel = 0 := rfl
  have r1 : labelRank neutralLabel = 1 := rfl
  have r2 : labelRank positiveLabel = 2 := rfl
  have r3 : labelRank veryPositiveLabel = 3 := rfl
  have d1 : positiveLabel ≠ veryPositiveLabel := by decide
  have d2 : neutralLabel ≠ veryPositiveLabel := by decide
  have d3 : neutralLabel ≠ positiveLabel := by decide
  have d4 : negativeLabel ≠ veryPositiveLabel := by decide
  have d5 : negativeLabel ≠ positiveLabel := by decide
  rw [sentimentLabel_of_number s1 q1 h1, sentimentLabel_of_number s2 q2 h2,
    scoreSign_of_number s1 q1 h1]
  refine ⟨⟨?_, ?_, ?_, ?_⟩, labels_distinct, ?_, ?_, ?_⟩
  · intro c
    rw [if_pos c]
  · intro c c2
    rw [if_neg (not_lt.mpr c2), if_pos c]
  · intro c c2
    have n1 : ¬ ((0.5 : ℚ) < q1) := by
      intro hc
      linarith
    rw [if_neg n1, if_neg (not_lt.mpr c2), if_pos c]
  · intro c
    have n1 : ¬ ((0.5 : ℚ) < q1) := by
      intro hc
      linarith
    have n2 : ¬ ((0 : ℚ) < q1) := by
      intro hc
      linarith
    rw [if_neg n1, if_neg n2, if_neg (not_lt.mpr c)]
  · refine ⟨_, _, rfl, rfl, ?_⟩
    split_ifs <;> simp only [r0, r1, r2, r3] <;> first | omega | (exfalso; linarith)
  · by_cases c1 : (0.5 : ℚ) < q1
    · have c0 : (0 : ℚ) < q1 := by linarith
      simp [c1, c0]
    · by_cases c2 : (0 : ℚ) < q1
      · simp [c1, c2]
      · by_cases c3 : (-0.5 : ℚ) < q1
        · simp [c1, c2, c3, d2, d3]
        · simp [c1, c2, c3, d4, d5]
  · by_cases c : (0 : ℚ) < q1
    · exact Or.inl (by rw [if_pos c])
    · exact Or.inr (by rw [if_neg c])

/-- C14 at the scores 0.3 and 0.8. -/
theorem C14_label_is_monotone_classification_witness :
    getPropOpt (.obj [("sentiment_score", .num 0.3)]) "sentiment_score" = .num 0.3 ∧
      getPropOpt (.obj [("sentiment_score", .num 0.8)]) "sentiment_score" = .num 0.8 ∧
      (0.3 : ℚ) ≤ 0.8 ∧
      ∃ l1 l2, sentimentLabel (.obj [("sentiment_score", .num 0.3)]) = some l1 ∧
        sentimentLabel (.obj [("sentiment_score", .num 0.8)]) = some l2 ∧
        labelRank l1 ≤ labelRank l2 :=
  ⟨rfl, rfl, by norm_num,
    (C14_label_is_monotone_classification (.obj [("sentiment_score", .num 0.3)])
      (.obj [("sentiment_score", .num 0.8)]) 0.3 0.8 rfl rfl (by norm_num)).2.2.1⟩

/-- C15: for a shown sentiment value that has no `sentiment_score` field, each of
the three threshold comparisons is false, so the label is the Negative literal,
not the Neutral one, and the sign is empty. -/
theorem C15_missing_score_is_labelled_negative (sentiment : JsVal)
    (_hshown : sentimentShown sentiment = true)
    (hmissing : getPropOpt sentiment "sentiment_score" = .undefined) :
    jsGt (getPropOpt sentiment "sentiment_score") 0.5 = some false ∧
      jsGt (getPropOpt sentiment "sentiment_score") 0 = some false ∧
      jsGt (getPropOpt sentiment "sentiment_score") (-0.5) = some false ∧
      sentimentLabel sentiment = some negativeLabel ∧
      sentimentLabel sentiment ≠ some neutralLabel ∧
      scoreSign sentiment = some "" := by
  have hl : sentimentLabel sentiment = some negativeLabel := by
    simp [sentimentLabel, hmissing, jsGt, toNumber, numGt]
  refine ⟨?_, ?_, ?_, hl, ?_, ?_⟩
  · rw [hmissing]
    rfl
  · rw [hmissing]
    rfl
  · rw [hmissing]
    rfl
  · rw [hl]
    simp only [ne_eq, Option.some.injEq]
    decide
  · simp [scoreSign, hmissing, jsGt, toNumber, numGt]

/-- C15 at the neutral default as the specification writes it, stored by
`loadData` as the sentiment response. -/
theorem C15_missing_score_is_labelled_negative_witness :
    (loadData (.response true (.ok (.obj [("data", .arr [])])))
        (.response true (.ok specNeutralDefault)) initialState).sentiment = specNeutralDefault ∧
      sentimentShown specNeutralDefault = true ∧
      getPropOpt specNeutralDefault "sentiment_score" = .undefined ∧
      sentimentLabel specNeutralDefault = some negativeLabel ∧
      scoreSign specNeutralDefault = some "" :=
  ⟨rfl, rfl, rfl,
    (C15_missing_score_is_labelled_negative specNeutralDefault rfl rfl).2.2.2.1,
    (C15_missing_score_is_labelled_negative specNeutralDefault rfl rfl).2.2.2.2.2⟩

/-! ## The allocation table -/

/-- A row whose current weight is a stored non-zero number and whose change is
positive: the three cells are the fixed notations of the two-decimal numbers
that the percentages come to. -/
theorem allocationRow_of_gain (optimizationResult : JsVal) (symbol : String) (w c : ℚ)
    (nc nw nd : Nat)
    (hfound : indexOpt (getPropOpt optimizationResult "current_weights") symbol
      = some (.value (.num c)))
    (hc0 : c ≠ 0) (hw : |w| ≤ 10) (hc : |c| ≤ 10) (hnc : 1 ≤ nc) (hnw : 1 ≤ nw) (hnd : 1 ≤ nd)
    (hcur : c * 100 = (nc : ℚ) / 100) (hrec : w * 100 = (nw : ℚ) / 100)
    (hchg : (w - c) * 100 = (nd : ℚ) / 100) :
    allocationRow optimizationResult symbol (.num w)
      = some ⟨symbol, fixedDigits 2 nc ++ "%", fixedDigits 2 nw ++ "%",
          "+" ++ fixedDigits 2 nd ++ "%"⟩ := by
  have horz : orZeroNumber (.value (.num c)) = some (.fin c) := by
    simp [orZeroNumber, jsOr, truthy, hc0, toNumber]
  have hnum : toNumber (.num w) = some (.fin w) := rfl
  obtain ⟨d1, hd1, he1⟩ := numSub_near w c (by linarith) (by linarith)
  rw [abs_le] at hw hc
  have hd1b : |d1| ≤ 1000 := by
    rw [abs_le] at he1 ⊢
    constructor <;> linarith
  obtain ⟨d2, hd2, he2⟩ := numMul_hundred_near d1 hd1b
  obtain ⟨c2, hc2, hce⟩ := numMul_hundred_near c (by rw [abs_le]; constructor <;> linarith)
  obtain ⟨w2, hw2, hwe⟩ := numMul_hundred_near w (by rw [abs_le]; constructor <;> linarith)
  rw [abs_le] at he1 he2 hce hwe
  obtain ⟨tchg, schg⟩ := numToFixed_two_near d2 nd hnd
    (by rw [abs_le]; constructor <;> linarith) (by rw [abs_le]; constructor <;> linarith)
  obtain ⟨tcur, _⟩ := numToFixed_two_near c2 nc hnc
    (by rw [abs_le]; constructor <;> linarith) (by rw [abs_le]; constructor <;> linarith)
  obtain ⟨trec, _⟩ := numToFixed_two_near w2 nw hnw
    (by rw [abs_le]; constructor <;> linarith) (by rw [abs_le]; constructor <;> linarith)
  simp only [allocationRow, hfound, horz, hnum, hd1, hd2, hc2, hw2, tchg, schg, tcur, trec,
    Option.bind_eq_bind, Option.some_bind, Option.pure_def, bind, pure, if_true]

/-- A row whose current weight is a stored non-zero number and whose change is
negative: the Change cell carries the minus sign of the text and no plus. -/
theorem allocationRow_of_loss (optimizationResult : JsVal) (symbol : String) (w c : ℚ)
    (nc nw nd : Nat)
    (hfound : indexOpt (getPropOpt optimizationResult "current_weights") symbol
      = some (.value (.num c)))
    (hc0 : c ≠ 0) (hw : |w| ≤ 10) (hc : |c| ≤ 10) (hnc : 1 ≤ nc) (hnw : 1 ≤ nw) (hnd : 1 ≤ nd)
    (hcur : c * 100 = (nc : ℚ) / 100) (hrec : w * 100 = (nw : ℚ) / 100)
    (hchg : (w - c) * 100 = -((nd : ℚ) / 100)) :
    allocationRow optimizationResult symbol (.num w)
      = some ⟨symbol, fixedDigits 2 nc ++ "%", fixedDigits 2 nw ++ "%",
          "" ++ ("-" ++ fixedDigits 2 nd) ++ "%"⟩ := by
  have horz : orZeroNumber (.value (.num c)) = some (.fin c) := by
    simp [orZeroNumber, jsOr, truthy, hc0, toNumber]
  have hnum : toNumber (.num w) = some (.fin w) := rfl
  obtain ⟨d1, hd1, he1⟩ := numSub_near w c (by linarith) (by linarith)
  rw [abs_le] at hw hc
  have hd1b : |d1| ≤ 1000 := by
    rw [abs_le] at he1 ⊢
    constructor <;> linarith
  obtain ⟨d2, hd2, he2⟩ := numMul_hundred_near d1 hd1b
  obtain ⟨c2, hc2, hce⟩ := numMul_hundred_near c (by rw [abs_le]; constructor <;> linarith)
  obtain ⟨w2, hw2, hwe⟩ := numMul_hundred_near w (by rw [abs_le]; constructor <;> linarith)
  rw [abs_le] at he1 he2 hce hwe
  obtain ⟨tchg, schg⟩ := numToFixed_two_near_neg d2 nd hnd
    (by rw [abs_le]; constructor <;> linarith) (by rw [abs_le]; constructor <;> linarith)
  obtain ⟨tcur, _⟩ := numToFixed_two_near c2 nc hnc
    (by rw [abs_le]; constructor <;> linarith) (by rw [abs_le]; constructor <;> linarith)
  obtain ⟨trec, _⟩ := numToFixed_two_near w2 nw hnw
    (by rw [abs_le]; constructor <;> linarith) (by rw [abs_le]; constructor <;> linarith)
  simp only [allocationRow, hfound, horz, hnum, hd1, hd2, hc2, hw2, tchg, schg, tcur, trec,
    Option.bind_eq_bind, Option.some_bind, Option.pure_def, bind, pure, Bool.false_eq_true,
    if_false]

/-- A row whose symbol is no key of `current_weights` but names an inherited
member: the current weight is that member, so the Current Weight cell and the
Change cell read `NaN%`. -/
theorem allocationRow_of_inherited (optimizationResult : JsVal) (symbol : String) (w : ℚ)
    (nw : Nat)
    (hfound : indexOpt (getPropOpt optimizationResult "current_weights") symbol
      = some .inherited)
    (hw : |w| ≤ 10) (hnw : 1 ≤ nw) (hrec : w * 100 = (nw : ℚ) / 100) :
    allocationRow optimizationResult symbol (.num w)
      = some ⟨symbol, "NaN" ++ "%", fixedDigits 2 nw ++ "%", "" ++ "NaN" ++ "%"⟩ := by
  have horz : orZeroNumber .inherited = some .nan := rfl
  have hnum : toNumber (.num w) = some (.fin w) := rfl
  have hnan : numToFixed .nan 2 = some "NaN" := rfl
  have hval : numGt (numFixedValue .nan 2) 0 = false := rfl
  rw [abs_le] at hw
  obtain ⟨w2, hw2, hwe⟩ := numMul_hundred_near w (by rw [abs_le]; constructor <;> linarith)
  rw [abs_le] at hwe
  obtain ⟨trec, _⟩ := numToFixed_two_near w2 nw hnw
    (by rw [abs_le]; constructor <;> linarith) (by rw [abs_le]; constructor <;> linarith)
  simp only [allocationRow, hfound, horz, hnum, numSub_nan_right, numMul_nan_left, hnan, hval,
    hw2, trec, Option.bind_eq_bind, Option.some_bind, Option.pure_def, bind, pure,
    Bool.false_eq_true, if_false]

theorem numMul_zero_hundred : numMul (.fin 0) (.fin 100) = .fin 0 := by
  obtain ⟨h2, hh2, _⟩ := toDouble_near 100 (by norm_num)
  simp only [numMul, asDouble, toDouble_zero, hh2, zero_mul]

theorem numToFixed_zero_two : numToFixed (.fin 0) 2 = some "0.00" := by
  have hbig : ¬ ((10 : ℚ) ^ 21 ≤ |(0 : ℚ)|) := by norm_num
  have ht : toFixed 0 2 = "0.00" := by
    have h0 : ¬ ((0 : ℚ) < 0) := by norm_num
    rw [toFixed, if_neg h0, roundHalfUp_zero]
    rfl
  simp only [numToFixed, asDouble, toDouble_zero, if_neg hbig, ht]

/-- A row whose symbol is no key of `current_weights` and names no inherited
member: the current weight is taken as 0. -/
theorem allocationRow_of_missing (optimizationResult : JsVal) (symbol : String) (w : ℚ)
    (nw : Nat)
    (hfound : indexOpt (getPropOpt optimizationResult "current_weights") symbol
      = some (.value .undefined))
    (hw : |w| ≤ 10) (hnw : 1 ≤ nw) (hrec : w * 100 = (nw : ℚ) / 100) :
    allocationRow optimizationResult symbol (.num w)
      = some ⟨symbol, "0.00" ++ "%", fixedDigits 2 nw ++ "%",
          "+" ++ fixedDigits 2 nw ++ "%"⟩ := by
  have horz : orZeroNumber (.value .undefined) = some (.fin 0) := by
    simp [orZeroNumber, jsOr, truthy, toNumber]
  have hnum : toNumber (.num w) = some (.fin w) := rfl
  obtain ⟨d1, hd1, he1⟩ := numSub_near w 0 (by linarith) (by norm_num)
  rw [abs_le] at hw
  have hd1b : |d1| ≤ 1000 := by
    rw [abs_le] at he1 ⊢
    constructor <;> linarith
  obtain ⟨d2, hd2, he2⟩ := numMul_hundred_near d1 hd1b
  obtain ⟨w2, hw2, hwe⟩ := numMul_hundred_near w (by rw [abs_le]; constructor <;> linarith)
  rw [abs_le] at he1 he2 hwe
  obtain ⟨tchg, schg⟩ := numToFixed_two_near d2 nw hnw
    (by rw [abs_le]; constructor <;> linarith) (by rw [abs_le]; constructor <;> linarith)
  obtain ⟨trec, _⟩ := numToFixed_two_near w2 nw hnw
    (by rw [abs_le]; constructor <;> linarith) (by rw [abs_le]; constructor <;> linarith)
  simp only [allocationRow, hfound, horz, hnum, hd1, hd2, hw2, tchg, schg, trec,
    numMul_zero_hundred, numToFixed_zero_two, Option.bind_eq_bind, Option.some_bind,
    Option.pure_def, bind, pure, if_true]

/-- C16, the code at a symbol that names an inherited member: for the OK
response whose `weights` are AAPL 0.50 and toString 0.50, the symbol `toString`
is no key of the stored `current_weights`, yet its current weight is not taken
as 0: the lookup finds the method every object inherits, and the row reads
`NaN%` in the Current Weight and the Change cell.  For a missing symbol that
names no inherited member, such as TSLA, the current weight is taken as 0; the
row of AAPL and the rows of the fallback result are as the claim says: +17.00%,
and +7.00%, +2.00%, -9.00%. -/
theorem C16_inherited_symbol_row_is_nan :
    getPropOpt (handleOptimization (.response true (.ok inheritedSymbolBody))
        initialState).optimizationResult "recommended_weights"
      = .obj [("AAPL", .num 0.50), ("toString", .num 0.50)] ∧
    "toString" ∉ keysOf (getPropOpt (handleOptimization (.response true (.ok inheritedSymbolBody))
        initialState).optimizationResult "current_weights") ∧
    allocationRows (handleOptimization (.response true (.ok inheritedSymbolBody))
        initialState).optimizationResult
      = some [⟨"AAPL", "33.00%", "50.00%", "+17.00%"⟩,
              ⟨"toString", "NaN%", "50.00%", "NaN%"⟩] ∧
    allocationRow (handleOptimization (.response true (.ok inheritedSymbolBody))
        initialState).optimizationResult "TSLA" (.num 0.50)
      = some ⟨"TSLA", "0.00%", "50.00%", "+50.00%"⟩ ∧
    allocationRows (handleOptimization (.rejected "Failed to fetch")
        initialState).optimizationResult
      = some [⟨"AAPL", "33.00%", "40.00%", "+7.00%"⟩,
              ⟨"MSFT", "33.00%", "35.00%", "+2.00%"⟩,
              ⟨"GOOGL", "34.00%", "25.00%", "-9.00%"⟩] := by
  have hkeys : keysOf (getPropOpt (handleOptimization (.response true (.ok inheritedSymbolBody))
      initialState).optimizationResult "current_weights") = ["AAPL", "MSFT", "GOOGL"] := rfl
  refine ⟨rfl, ?_, ?_, ?_, ?_⟩
  · rw [hkeys]
    decide
  · have hr : getPropOpt (handleOptimization (.response true (.ok inheritedSymbolBody))
        initialState).optimizationResult "recommended_weights"
        = .obj [("AAPL", .num 0.50), ("toString", .num 0.50)] := rfl
    have r1 := allocationRow_of_gain (handleOptimization (.response true (.ok inheritedSymbolBody))
      initialState).optimizationResult "AAPL" 0.50 0.33 3300 5000 1700 rfl (by norm_num)
      (by norm_num [abs_le]) (by norm_num [abs_le]) (by norm_num) (by norm_num) (by norm_num)
      (by norm_num) (by norm_num) (by norm_num)
    have r2 := allocationRow_of_inherited
      (handleOptimization (.response true (.ok inheritedSymbolBody))
      initialState).optimizationResult "toString" 0.50 5000 rfl
      (by norm_num [abs_le]) (by norm_num) (by norm_num)
    simp only [allocationRows, hr, truthy, spreadProps, if_true, List.mapM_cons, List.mapM_nil,
      r1, r2, Option.bind_eq_bind, Option.some_bind, Option.pure_def, bind, pure]
    rfl
  · have r := allocationRow_of_missing (handleOptimization (.response true (.ok inheritedSymbolBody))
      initialState).optimizationResult "TSLA" 0.50 5000 rfl
      (by norm_num [abs_le]) (by norm_num) (by norm_num)
    rw [r]
    rfl
  · show allocationRows catchResult = _
    have hr : getPropOpt catchResult "recommended_weights"
        = .obj [("AAPL", .num 0.40), ("MSFT", .num 0.35), ("GOOGL", .num 0.25)] := rfl
    have r1 := allocationRow_of_gain catchResult "AAPL" 0.40 0.33 3300 4000 700 rfl
      (by norm_num) (by norm_num [abs_le]) (by norm_num [abs_le]) (by norm_num) (by norm_num)
      (by norm_num) (by norm_num) (by norm_num) (by norm_num)
    have r2 := allocationRow_of_gain catchResult "MSFT" 0.35 0.33 3300 3500 200 rfl
      (by norm_num) (by norm_num [abs_le]) (by norm_num [abs_le]) (by norm_num) (by norm_num)
      (by norm_num) (by norm_num) (by norm_num) (by norm_num)
    have r3 := allocationRow_of_loss catchResult "GOOGL" 0.25 0.34 3400 2500 900 rfl
      (by norm_num) (by norm_num [abs_le]) (by norm_num [abs_le]) (by norm_num) (by norm_num)
      (by norm_num) (by norm_num) (by norm_num) (by norm_num)
    simp only [allocationRows, hr, truthy, spreadProps, if_true, List.mapM_cons, List.mapM_nil,
      r1, r2, r3, Option.bind_eq_bind, Option.some_bind, Option.pure_def, bind, pure]
    rfl

/-! ## Completion of `loadData` -/

/-- A run of `loadData` that does not reach the end of its `try` block ends in
the `catch` block, with a message in `error`. -/
theorem loadData_of_not_loadCompletes (market sentiment : FetchOutcome) (s : AppState)
    (h : loadCompletes market sentiment = false) :
    (loadData market sentiment s).loading = false ∧
      ∃ message, (loadData market sentiment s).error = some message := by
  match market, sentiment, h with
  | .rejected _, _, _ => exact ⟨rfl, _, rfl⟩
  | .response _ (.error _), _, _ => exact ⟨rfl, _, rfl⟩
  | .response _ (.ok marketJson), .rejected _, _ =>
    cases marketJson <;> exact ⟨rfl, _, rfl⟩
  | .response _ (.ok marketJson), .response _ (.error _), _ =>
    cases marketJson <;> exact ⟨rfl, _, rfl⟩
  | .response _ (.ok marketJson), .response _ (.ok _), h =>
    have hn : isNullish marketJson = true := by simpa [loadCompletes] using h
    cases marketJson <;> first | exact ⟨rfl, _, rfl⟩ | simp [isNullish] at hn

/-- C17 as stated fails: with both requests resolved and both bodies parsed,
the market body being the JSON value `null`, `loadData` ends with a message in
`error`. -/
theorem C17_counterexample :
    bothParsed (.response true (.ok .null)) (.response true (.ok neutralSentiment)) = true ∧
      (loadData (.response true (.ok .null)) (.response true (.ok neutralSentiment))
          initialState).error
        = some "Cannot read properties of null (reading \x27data\x27)" ∧
      (loadData (.response true (.ok .null)) (.response true (.ok neutralSentiment))
          initialState).error ≠ none := by
  have he : (loadData (.response true (.ok .null)) (.response true (.ok neutralSentiment))
      initialState).error = some "Cannot read properties of null (reading \x27data\x27)" := rfl
  refine ⟨rfl, he, ?_⟩
  rw [he]
  simp

/-- C17, amended: on every path `loading` is false when `loadData` completes;
`error` is null exactly when both requests resolved, both bodies parsed and the
market body is not nullish; and on such a run `marketData` is the `data` field
of the market body when that is truthy and the empty list otherwise, in
particular when the field is missing. -/
theorem C17_loadData_completion (market sentiment : FetchOutcome) (s : AppState) :
    (loadData market sentiment s).loading = false ∧
      ((loadData market sentiment s).error = none ↔ loadCompletes market sentiment = true) ∧
      (loadCompletes market sentiment = true → bothParsed market sentiment = true) ∧
      (∀ marketJson, loadCompletes market sentiment = true →
        fetchJson market = .ok marketJson →
          (loadData market sentiment s).marketData
              = jsOr (getPropOpt marketJson "data") (.arr []) ∧
            (getPropOpt marketJson "data" = .undefined →
              (loadData market sentiment s).marketData = .arr []) ∧
            (truthy (getPropOpt marketJson "data") = true →
              (loadData market sentiment s).marketData = getPropOpt marketJson "data")) := by
  cases hc : loadCompletes market sentiment
  · obtain ⟨hl, message, hm⟩ := loadData_of_not_loadCompletes market sentiment s hc
    refine ⟨hl, ?_, ?_, ?_⟩
    · rw [hm]
      simp
    · intro h
      exact absurd h (by simp)
    · intro _ h
      exact absurd h (by simp)
  · match market, sentiment, hc with
    | .response ok1 (.ok marketJson), .response ok2 (.ok sentimentJson), hc =>
      have hn : isNullish marketJson = false := by simpa [loadCompletes] using hc
      rw [loadData_of_parsed ok1 ok2 marketJson sentimentJson s hn]
      refine ⟨rfl, ?_, ?_, ?_⟩
      · simp
      · intro _
        rfl
      · intro mj _ hmj
        have hmj2 : marketJson = mj := by
          simpa [fetchJson] using hmj
        subst hmj2
        refine ⟨rfl, ?_, ?_⟩
        · intro hu
          simp [hu, jsOr, truthy]
        · intro ht
          simp [jsOr, ht]

/-- C17, amended, at a market body without a `data` field. -/
theorem C17_loadData_completion_witness :
    loadCompletes (.response true (.ok (.obj []))) (.response true (.ok neutralSentiment)) = true ∧
      (loadData (.response true (.ok (.obj []))) (.response true (.ok neutralSentiment))
        initialState).loading = false ∧
      (loadData (.response true (.ok (.obj []))) (.response true (.ok neutralSentiment))
        initialState).marketData = .arr [] :=
  ⟨rfl,
    (C17_loadData_completion (.response true (.ok (.obj [])))
      (.response true (.ok neutralSentiment)) initialState).1,
    ((C17_loadData_completion (.response true (.ok (.obj [])))
      (.response true (.ok neutralSentiment)) initialState).2.2.2 (.obj []) rfl rfl).2.1 rfl⟩

end Portfolioptimizer
